import Mathlib

/-!
Verification development for the terminal traffic-light simulator.

The Rust core is shallowly embedded: every stateful method becomes a pure
function from the old state (plus an explicit clock value) to the new state.
Wall-clock sampling (`Instant::now()`) is modelled by threading an explicit
`now` parameter; stored `Instant`s become rational timestamps and
`Duration`s become rational second counts.  `f32` arithmetic is modelled
over `ℚ` (all constants appearing in the verified properties are exactly
representable).  The one non-rational operation, the Euclidean square root
in `Position::distance_to`, is embedded by comparing squared distances
against squared (non-negative) thresholds, which is equivalent over the
reals.  Randomness (`rand::Rng`) is modelled by an explicit oracle record
supplying one drawn value per random call site per tick.
-/

/-- `f32::max` (and `Ord::max` on durations) on rationals, written with an
explicit conditional so that concrete instances reduce inside the kernel. -/
def rmax (a b : ℚ) : ℚ := if a ≤ b then b else a

/-- `f32::min` on rationals, written with an explicit conditional so that
concrete instances reduce inside the kernel. -/
def rmin (a b : ℚ) : ℚ := if a ≤ b then a else b

/-- `Instant::elapsed` / `Instant::duration_since`: the elapsed time from
timestamp `t` to clock value `now`, saturating at zero as in Rust. -/
def elapsedSince (now t : ℚ) : ℚ := rmax (now - t) 0

namespace Sim

/-- src/traffic/mod.rs: `Direction`. -/
inductive Direction where
  | North
  | South
  | East
  | West
deriving DecidableEq, Repr

namespace Direction

/-- src/traffic/mod.rs: `Direction::opposite`. -/
def opposite : Direction → Direction
  | .North => .South
  | .South => .North
  | .East => .West
  | .West => .East

/-- src/traffic/mod.rs: `Direction::perpendicular`. -/
def perpendicular : Direction → Direction × Direction
  | .North | .South => (.East, .West)
  | .East | .West => (.North, .South)

end Direction

/-- src/traffic/vehicles.rs: `Position` (integer grid coordinate). -/
structure Position where
  x : Int
  y : Int
deriving DecidableEq, Repr

namespace Position

/-- src/traffic/vehicles.rs: `Position::new`. -/
def new (x y : Int) : Position := ⟨x, y⟩

/-- src/traffic/vehicles.rs: `Position::step`. -/
def step (p : Position) : Direction → Position
  | .North => ⟨p.x, p.y - 1⟩
  | .South => ⟨p.x, p.y + 1⟩
  | .East => ⟨p.x + 1, p.y⟩
  | .West => ⟨p.x - 1, p.y⟩

/-- src/traffic/vehicles.rs: `Position::distance_to` squared.  The source
returns `sqrt(dx*dx + dy*dy)`; every use in the core compares the distance
with a non-negative constant `c`, which we embed as comparing this squared
distance with `c*c` (equivalent since `sqrt` is monotone on nonnegatives). -/
def distSqTo (p q : Position) : ℚ :=
  ((p.x - q.x : ℤ) * (p.x - q.x) + (p.y - q.y) * (p.y - q.y) : ℤ)

end Position

/-- src/traffic/lights.rs: `LightState`. -/
inductive LightState where
  | Red
  | Yellow
  | Green
deriving DecidableEq, Repr

namespace LightState

/-- src/traffic/lights.rs: `LightState::can_proceed`. -/
def canProceed : LightState → Bool
  | .Green => true
  | _ => false

end LightState

/-- src/traffic/mod.rs: duration constants (seconds). -/
def DEFAULT_GREEN_DURATION : ℚ := 8

def DEFAULT_YELLOW_DURATION : ℚ := 2

def DEFAULT_RED_DURATION : ℚ := 10

/-- src/traffic/lights.rs: `TrafficLight`. -/
structure TrafficLight where
  direction : Direction
  state : LightState
  last_change : ℚ
  green_duration : ℚ
  yellow_duration : ℚ
  red_duration : ℚ
  emergency_override : Bool
deriving DecidableEq, Repr

namespace TrafficLight

/-- src/traffic/lights.rs: `TrafficLight::new` (created at clock `now`). -/
def new (direction : Direction) (now : ℚ) : TrafficLight :=
  { direction := direction
    state := .Red
    last_change := now
    green_duration := DEFAULT_GREEN_DURATION
    yellow_duration := DEFAULT_YELLOW_DURATION
    red_duration := DEFAULT_RED_DURATION
    emergency_override := false }

/-- Duration of the current state, as matched in `update`/`should_change`. -/
def currentDuration (l : TrafficLight) : ℚ :=
  match l.state with
  | .Green => l.green_duration
  | .Yellow => l.yellow_duration
  | .Red => l.red_duration

/-- src/traffic/lights.rs: `TrafficLight::should_change`. -/
def shouldChange (l : TrafficLight) (now : ℚ) : Bool :=
  if l.emergency_override then false
  else decide (elapsedSince now l.last_change ≥ l.currentDuration)

/-- src/traffic/lights.rs: `TrafficLight::advance_state`. -/
def advanceState (l : TrafficLight) : TrafficLight :=
  { l with
    state :=
      match l.state with
      | .Green => .Yellow
      | .Yellow => .Red
      | .Red => .Green }

/-- src/traffic/lights.rs: `TrafficLight::update`. -/
def update (l : TrafficLight) (now : ℚ) : TrafficLight :=
  if l.emergency_override then { l with state := .Red }
  else
    if elapsedSince now l.last_change ≥ l.currentDuration then
      { l.advanceState with last_change := now }
    else l

/-- src/traffic/lights.rs: `TrafficLight::set_emergency_override`. -/
def setEmergencyOverride (l : TrafficLight) (active : Bool) (now : ℚ) : TrafficLight :=
  if active then
    { l with emergency_override := active, state := .Red, last_change := now }
  else { l with emergency_override := active }

end TrafficLight

/-- src/traffic/vehicles.rs: `VehicleType`. -/
inductive VehicleType where
  | Car
  | Truck
  | Emergency
deriving DecidableEq, Repr

namespace VehicleType

/-- src/traffic/vehicles.rs: `VehicleType::speed` (cells per second). -/
def speed : VehicleType → ℚ
  | .Car => 2
  | .Truck => 3/2
  | .Emergency => 3

end VehicleType

/-- src/traffic/vehicles.rs: `VehicleState`. -/
inductive VehicleState where
  | Moving
  | Waiting
  | AtIntersection
  | Exited
deriving DecidableEq, Repr

/-- src/traffic/vehicles.rs: `Vehicle`. -/
structure Vehicle where
  id : ℕ
  vehicle_type : VehicleType
  position : Position
  direction : Direction
  state : VehicleState
  last_move : ℚ
  target_position : Option Position
  waited_time : ℚ
deriving DecidableEq, Repr

namespace Vehicle

/-- src/traffic/vehicles.rs: `Vehicle::new` (created at clock `now`). -/
def new (id : ℕ) (vehicle_type : VehicleType) (position : Position)
    (direction : Direction) (now : ℚ) : Vehicle :=
  { id := id
    vehicle_type := vehicle_type
    position := position
    direction := direction
    state := .Moving
    last_move := now
    target_position := none
    waited_time := 0 }

/-- src/traffic/vehicles.rs: `Vehicle::is_emergency`. -/
def isEmergency (v : Vehicle) : Bool := v.vehicle_type = VehicleType.Emergency

/-- src/traffic/vehicles.rs: `Vehicle::set_state`. -/
def setState (v : Vehicle) (s : VehicleState) (now : ℚ) : Vehicle :=
  if s = VehicleState.Moving then { v with state := s, last_move := now }
  else { v with state := s }

/-- src/traffic/vehicles.rs: `Vehicle::update`.  Note the source adds
`waited_time += delta_time` before the early return for exited vehicles. -/
def update (v : Vehicle) (delta_time now : ℚ) : Vehicle :=
  let v := { v with waited_time := v.waited_time + delta_time }
  if v.state = VehicleState.Exited then v
  else
    let move_interval := 1 / v.vehicle_type.speed
    if elapsedSince now v.last_move ≥ move_interval then
      if v.state = VehicleState.Moving then
        { v with position := v.position.step v.direction, last_move := now }
      else v
    else v

/-- src/traffic/vehicles.rs: `Vehicle::is_stuck`. -/
def isStuck (v : Vehicle) : Bool :=
  decide (v.waited_time > 30) && v.state = VehicleState.Waiting

end Vehicle

/-- A total map from `Direction`.  Embeds `HashMap<Direction, _>` maps of the
intersection, which are seeded with exactly the four directions at
construction and never gain or lose keys (so `get` always succeeds and the
source's `if let Some(..) = map.get(..)` branches always fire). -/
structure DirMap (α : Type) where
  north : α
  south : α
  east : α
  west : α
deriving DecidableEq, Repr

namespace DirMap

def get (m : DirMap α) : Direction → α
  | .North => m.north
  | .South => m.south
  | .East => m.east
  | .West => m.west

def set (m : DirMap α) : Direction → α → DirMap α
  | .North, a => { m with north := a }
  | .South, a => { m with south := a }
  | .East, a => { m with east := a }
  | .West, a => { m with west := a }

/-- Build a `DirMap` from a function, as the construction loop over
`[North, South, East, West]` does. -/
def ofFun (f : Direction → α) : DirMap α :=
  ⟨f .North, f .South, f .East, f .West⟩

end DirMap

/-- The four directions in the iteration order used by the source wherever
it iterates over the direction maps or the direction array. -/
def allDirections : List Direction := [.North, .South, .East, .West]

/-- src/traffic/intersection.rs: `Intersection`. -/
structure Intersection where
  id : ℕ
  position : Position
  lights : DirMap TrafficLight
  waiting_vehicles : DirMap (List ℕ)
  emergency_active : Bool
  emergency_start : Option ℚ
  emergency_duration : ℚ
  traffic_count : ℕ
  efficiency_score : ℚ
deriving DecidableEq, Repr

namespace Intersection

/-- src/traffic/intersection.rs: `Intersection::new` — lights seeded with
North/South green and East/West red, all timers at `now`. -/
def new (id : ℕ) (position : Position) (now : ℚ) : Intersection :=
  { id := id
    position := position
    lights := DirMap.ofFun fun d =>
      match d with
      | .North | .South => { TrafficLight.new d now with state := .Green, last_change := now }
      | .East | .West => { TrafficLight.new d now with state := .Red, last_change := now }
    waiting_vehicles := DirMap.ofFun fun _ => []
    emergency_active := false
    emergency_start := none
    emergency_duration := 15
    traffic_count := 0
    efficiency_score := 100 }

/-- src/traffic/intersection.rs: `Intersection::activate_emergency_mode`. -/
def activateEmergencyMode (i : Intersection) (now : ℚ) : Intersection :=
  { i with
    emergency_active := true
    emergency_start := some now
    lights := DirMap.ofFun fun d => (i.lights.get d).setEmergencyOverride true now }

/-- src/traffic/intersection.rs: `Intersection::deactivate_emergency_mode`. -/
def deactivateEmergencyMode (i : Intersection) (now : ℚ) : Intersection :=
  { i with
    emergency_active := false
    emergency_start := none
    lights := DirMap.ofFun fun d => (i.lights.get d).setEmergencyOverride false now }

/-- src/traffic/intersection.rs: `Intersection::handle_emergency_vehicles`. -/
def handleEmergencyVehicles (i : Intersection) (vehicles : List Vehicle) (now : ℚ) :
    Intersection :=
  let emergency_near := vehicles.any fun v =>
    v.isEmergency && decide (v.position.distSqTo i.position < 25) &&
      decide (v.state ≠ VehicleState.Exited)
  if emergency_near && !i.emergency_active then
    i.activateEmergencyMode now
  else if !emergency_near && i.emergency_active then
    match i.emergency_start with
    | some start_time =>
        if elapsedSince now start_time ≥ i.emergency_duration then
          i.deactivateEmergencyMode now
        else i
    | none => i
  else i

/-- src/traffic/intersection.rs: `Intersection::synchronize_opposing_lights`. -/
def synchronizeOpposingLights (i : Intersection) : Intersection :=
  let l := i.lights
  let l := { l with south :=
    { l.south with state := l.north.state, last_change := l.north.last_change } }
  let l := { l with west :=
    { l.west with state := l.east.state, last_change := l.east.last_change } }
  { i with lights := l }

/-- src/traffic/intersection.rs: `Intersection::update_traffic_lights`. -/
def updateTrafficLights (i : Intersection) (now : ℚ) : Intersection :=
  if i.emergency_active then i
  else
    let lights_to_update := allDirections.filter fun d => (i.lights.get d).shouldChange now
    let lights := lights_to_update.foldl
      (fun (m : DirMap TrafficLight) d => m.set d ((m.get d).update now)) i.lights
    synchronizeOpposingLights { i with lights := lights }

/-- src/traffic/intersection.rs: `Intersection::can_vehicle_proceed`. -/
def canVehicleProceed (i : Intersection) (v : Vehicle) : Bool :=
  if v.isEmergency then true
  else (i.lights.get v.direction).state.canProceed

/-- src/traffic/intersection.rs: `Intersection::add_waiting_vehicle`. -/
def addWaitingVehicle (i : Intersection) (direction : Direction) (vehicle_id : ℕ) :
    Intersection :=
  let waiting_list := i.waiting_vehicles.get direction
  if waiting_list.contains vehicle_id then i
  else { i with waiting_vehicles := i.waiting_vehicles.set direction (waiting_list ++ [vehicle_id]) }

/-- src/traffic/intersection.rs: `Intersection::remove_waiting_vehicle`. -/
def removeWaitingVehicle (i : Intersection) (direction : Direction) (vehicle_id : ℕ) :
    Intersection :=
  let kept := (i.waiting_vehicles.get direction).filter fun id => id ≠ vehicle_id
  { i with waiting_vehicles := i.waiting_vehicles.set direction kept }

/-- One iteration of the `manage_vehicle_flow` loop body, acting on the
intersection and the current vehicle. -/
def manageVehicleFlowStep (now : ℚ) (acc : Intersection × List Vehicle) (v : Vehicle) :
    Intersection × List Vehicle :=
  let (i, done) := acc
  if v.state = VehicleState.Exited then (i, done ++ [v])
  else
    let dsq := v.position.distSqTo i.position
    if dsq ≤ 4 ∧ dsq > 1/4 then
      if i.canVehicleProceed v then (i, done ++ [v.setState .Moving now])
      else
        (i.addWaitingVehicle v.direction v.id, done ++ [v.setState .Waiting now])
    else if dsq ≤ 1/4 then
      ({ i with traffic_count := i.traffic_count + 1 }, done ++ [v.setState .AtIntersection now])
    else if dsq > 4 ∧ v.state = VehicleState.AtIntersection then
      (i.removeWaitingVehicle v.direction v.id, done ++ [v.setState .Moving now])
    else (i, done ++ [v])

/-- src/traffic/intersection.rs: `Intersection::manage_vehicle_flow`
(the source's `d ≤ 2.0`, `d > 0.5`, `d ≤ 0.5`, `d > 2.0` comparisons are
the squared comparisons against `4` and `1/4` here). -/
def manageVehicleFlow (i : Intersection) (vehicles : List Vehicle) (now : ℚ) :
    Intersection × List Vehicle :=
  vehicles.foldl (manageVehicleFlowStep now) (i, [])

/-- `vehicles.iter_mut().find(..)` followed by a mutation: rewrite the first
list element satisfying `p` with `f`. -/
def modifyFirst (p : α → Bool) (f : α → α) : List α → List α
  | [] => []
  | x :: xs => if p x then f x :: xs else x :: modifyFirst p f xs

/-- src/traffic/intersection.rs: `Intersection::update_waiting_vehicles`. -/
def updateWaitingVehicles (i : Intersection) (vehicles : List Vehicle) (now : ℚ) :
    List Vehicle :=
  allDirections.foldl
    (fun (vs : List Vehicle) d =>
      if (i.lights.get d).state.canProceed then
        (i.waiting_vehicles.get d).foldl
          (fun (vs : List Vehicle) vehicle_id =>
            modifyFirst (fun v => v.id = vehicle_id)
              (fun v => if v.state = VehicleState.Waiting then v.setState .Moving now else v)
              vs)
          vs
      else vs)
    vehicles

/-- Total number of waiting vehicle ids across the four directions. -/
def totalWaiting (i : Intersection) : ℕ :=
  (allDirections.map fun d => (i.waiting_vehicles.get d).length).sum

/-- src/traffic/intersection.rs: `Intersection::calculate_efficiency`. -/
def calculateEfficiency (i : Intersection) : Intersection :=
  let waiting_penalty : ℚ := (totalWaiting i : ℚ) * 2
  let base_score : ℚ := 100
  let score := rmax (base_score - waiting_penalty) 0
  { i with efficiency_score := if i.emergency_active then score + 10 else score }

/-- src/traffic/intersection.rs: `Intersection::update`. -/
def update (i : Intersection) (vehicles : List Vehicle) (now : ℚ) :
    Intersection × List Vehicle :=
  let i := i.handleEmergencyVehicles vehicles now
  let i := i.updateTrafficLights now
  let (i, vehicles) := i.manageVehicleFlow vehicles now
  let vehicles := i.updateWaitingVehicles vehicles now
  let i := i.calculateEfficiency
  (i, vehicles)

end Intersection

/-- src/traffic/mod.rs: `VehicleSpawner` (the definition in `traffic/mod.rs`,
which shadows the glob re-export of the one in `vehicles.rs` and is the type
the simulation engine instantiates). -/
structure VehicleSpawner where
  spawn_rate : ℚ
  time_since_last_spawn : ℚ
  vehicle_id_counter : ℕ
deriving DecidableEq, Repr

namespace VehicleSpawner

/-- src/traffic/mod.rs: `VehicleSpawner::new`. -/
def new (spawn_rate : ℚ) : VehicleSpawner :=
  { spawn_rate := spawn_rate, time_since_last_spawn := 0, vehicle_id_counter := 0 }

/-- src/traffic/mod.rs: `VehicleSpawner::update`. -/
def update (sp : VehicleSpawner) (delta_time : ℚ) : VehicleSpawner :=
  { sp with time_since_last_spawn := sp.time_since_last_spawn + delta_time }

/-- src/traffic/mod.rs: the vehicle-type roll inside `try_spawn`
(`rand::random::<f32>()`, cutoffs 2% emergency / 18% truck / 80% car). -/
def rollVehicleType (rand_val : ℚ) : VehicleType :=
  if rand_val < 1/50 then .Emergency
  else if rand_val < 1/5 then .Truck
  else .Car

/-- src/traffic/mod.rs: `VehicleSpawner::try_spawn`; `rand_val` is the
oracle value for the type roll, `now` the creation clock for the vehicle. -/
def trySpawn (sp : VehicleSpawner) (position : Position) (direction : Direction)
    (now rand_val : ℚ) : Option Vehicle × VehicleSpawner :=
  if sp.spawn_rate ≤ 0 then (none, sp)
  else if sp.time_since_last_spawn ≥ 1 / sp.spawn_rate then
    (some (Vehicle.new (sp.vehicle_id_counter + 1) (rollVehicleType rand_val) position
        direction now),
      { sp with time_since_last_spawn := 0, vehicle_id_counter := sp.vehicle_id_counter + 1 })
  else (none, sp)

/-- src/traffic/mod.rs: `VehicleSpawner::set_spawn_rate` (clamped below at 0). -/
def setSpawnRate (sp : VehicleSpawner) (rate : ℚ) : VehicleSpawner :=
  { sp with spawn_rate := rmax rate 0 }

end VehicleSpawner

/-- src/simulation/weather.rs: `WeatherType`. -/
inductive WeatherType where
  | Clear
  | LightRain
  | HeavyRain
  | Snow
  | Fog
  | Storm
deriving DecidableEq, Repr

namespace WeatherType

/-- src/simulation/weather.rs: `WeatherType::traffic_multiplier`. -/
def trafficMultiplier : WeatherType → ℚ
  | .Clear => 1
  | .LightRain => 9/10
  | .HeavyRain => 7/10
  | .Snow => 3/5
  | .Fog => 4/5
  | .Storm => 1/2

end WeatherType

/-- src/simulation/weather.rs: `WeatherTransition`. -/
structure WeatherTransition where
  tfrom : WeatherType
  tto : WeatherType
  probability : ℚ
  min_duration : ℚ
deriving DecidableEq, Repr

/-- src/simulation/weather.rs: `WeatherSystem`. -/
structure WeatherSystem where
  current_weather : WeatherType
  previous_weather : WeatherType
  weather_start_time : ℚ
  weather_duration : ℚ
  min_weather_duration : ℚ
  max_weather_duration : ℚ
  enabled : Bool
  auto_change_enabled : Bool
  intensity : ℚ
  transition_active : Bool
  transition_progress : ℚ
  transition_duration : ℚ
  weather_transitions : List WeatherTransition
  last_change_time : ℚ
deriving DecidableEq, Repr

namespace WeatherSystem

/-- src/simulation/weather.rs: `WeatherSystem::initialize_transitions`
(the static weighted transition table). -/
def initialTransitions : List WeatherTransition :=
  [⟨.Clear, .LightRain, 3/10, 120⟩,
   ⟨.Clear, .Fog, 3/20, 180⟩,
   ⟨.Clear, .Snow, 1/10, 240⟩,
   ⟨.LightRain, .Clear, 2/5, 90⟩,
   ⟨.LightRain, .HeavyRain, 3/10, 120⟩,
   ⟨.LightRain, .Storm, 1/10, 60⟩,
   ⟨.HeavyRain, .LightRain, 1/2, 90⟩,
   ⟨.HeavyRain, .Clear, 1/5, 120⟩,
   ⟨.HeavyRain, .Storm, 3/20, 60⟩,
   ⟨.Snow, .Clear, 2/5, 180⟩,
   ⟨.Snow, .Fog, 1/5, 120⟩,
   ⟨.Fog, .Clear, 3/5, 120⟩,
   ⟨.Fog, .LightRain, 1/5, 90⟩,
   ⟨.Storm, .HeavyRain, 2/5, 60⟩,
   ⟨.Storm, .LightRain, 3/10, 90⟩,
   ⟨.Storm, .Clear, 1/5, 180⟩]

/-- src/simulation/weather.rs: `WeatherSystem::new` (created at clock `now`). -/
def new (now : ℚ) : WeatherSystem :=
  { current_weather := .Clear
    previous_weather := .Clear
    weather_start_time := now
    weather_duration := 300
    min_weather_duration := 60
    max_weather_duration := 600
    enabled := true
    auto_change_enabled := true
    intensity := 1
    transition_active := false
    transition_progress := 0
    transition_duration := 10
    weather_transitions := initialTransitions
    last_change_time := now }

/-- src/simulation/weather.rs: `WeatherSystem::update_transitions`. -/
def updateTransitions (ws : WeatherSystem) (delta_time : ℚ) : WeatherSystem :=
  if ws.transition_active then
    let progress := ws.transition_progress + delta_time / ws.transition_duration
    if progress ≥ 1 then
      { ws with
        transition_active := false
        transition_progress := 0
        previous_weather := ws.current_weather }
    else { ws with transition_progress := progress }
  else ws

/-- src/simulation/weather.rs: `WeatherSystem::change_weather`;
`duration_roll` models `rng.gen_range(0..=duration_range)` (taken modulo the
inclusive range size). -/
def changeWeather (ws : WeatherSystem) (new_weather : WeatherType) (now : ℚ)
    (duration_roll : ℕ) : WeatherSystem :=
  if new_weather = ws.current_weather then ws
  else
    let duration_range := ws.max_weather_duration.floor.toNat - ws.min_weather_duration.floor.toNat
    let random_duration := ws.min_weather_duration.floor.toNat + duration_roll % (duration_range + 1)
    { ws with
      previous_weather := ws.current_weather
      current_weather := new_weather
      weather_start_time := now
      last_change_time := now
      weather_duration := (random_duration : ℚ)
      transition_active := true
      transition_progress := 0 }

/-- The selection loop in `trigger_weather_change`: subtract each candidate
probability from the roll and pick the first transition driving it to ≤ 0. -/
def pickTransition (roll : ℚ) : List WeatherTransition → Option WeatherType
  | [] => none
  | t :: ts =>
      let roll := roll - t.probability
      if roll ≤ 0 then some t.tto else pickTransition roll ts

/-- src/simulation/weather.rs: `WeatherSystem::trigger_weather_change`;
`pick_roll` models `rng.gen::<f32>()` and `duration_roll` the duration draw
inside `change_weather`. -/
def triggerWeatherChange (ws : WeatherSystem) (now : ℚ) (pick_roll : ℚ)
    (duration_roll : ℕ) : WeatherSystem :=
  let possible_transitions := ws.weather_transitions.filter fun t => t.tfrom = ws.current_weather
  if possible_transitions.isEmpty then ws
  else
    let total_probability := (possible_transitions.map fun t => t.probability).sum
    match pickTransition (pick_roll * total_probability) possible_transitions with
    | some w => ws.changeWeather w now duration_roll
    | none => ws

/-- src/simulation/weather.rs: `WeatherSystem::check_weather_change`;
`change_roll` models `rng.gen::<f32>()`. -/
def checkWeatherChange (ws : WeatherSystem) (now : ℚ) (change_roll pick_roll : ℚ)
    (duration_roll : ℕ) : WeatherSystem :=
  let elapsed := elapsedSince now ws.weather_start_time
  if elapsed < ws.min_weather_duration then ws
  else
    let change_probability : ℚ := if elapsed > ws.weather_duration then 1/10 else 1/1000
    if change_roll < change_probability then
      ws.triggerWeatherChange now pick_roll duration_roll
    else ws

/-- src/simulation/weather.rs: `WeatherSystem::update_intensity`. -/
def updateIntensity (ws : WeatherSystem) (now : ℚ) : WeatherSystem :=
  let elapsed := elapsedSince now ws.weather_start_time
  { ws with
    intensity :=
      match ws.current_weather with
      | .Clear => 1
      | .LightRain => 3/5 + 2/5 * rmin (elapsed / 60) 1
      | .HeavyRain => 4/5 + 1/5 * rmin (elapsed / 30) 1
      | .Snow => 1/2 + 1/2 * rmin (elapsed / 120) 1
      | .Fog => 3/10 + 7/10 * rmin (elapsed / 90) 1
      | .Storm => 9/10 + 1/10 * rmin (elapsed / 15) 1 }

/-- src/simulation/weather.rs: `WeatherSystem::update`. -/
def update (ws : WeatherSystem) (delta_time now : ℚ) (change_roll pick_roll : ℚ)
    (duration_roll : ℕ) : WeatherSystem :=
  if !ws.enabled then ws
  else
    let ws := ws.updateTransitions delta_time
    let ws :=
      if ws.auto_change_enabled then ws.checkWeatherChange now change_roll pick_roll duration_roll
      else ws
    ws.updateIntensity now

/-- src/simulation/weather.rs: `WeatherSystem::set_current_weather`. -/
def setCurrentWeather (ws : WeatherSystem) (weather : WeatherType) (now : ℚ)
    (duration_roll : ℕ) : WeatherSystem :=
  if weather ≠ ws.current_weather then ws.changeWeather weather now duration_roll
  else ws

/-- src/simulation/weather.rs: `WeatherSystem::get_traffic_multiplier`. -/
def getTrafficMultiplier (ws : WeatherSystem) : ℚ :=
  ws.current_weather.trafficMultiplier * (1/2 + 1/2 * ws.intensity)

/-- src/simulation/weather.rs: `WeatherSystem::set_enabled`. -/
def setEnabled (ws : WeatherSystem) (enabled : Bool) : WeatherSystem :=
  if !enabled then
    { ws with
      enabled := enabled
      current_weather := .Clear
      intensity := 1
      transition_active := false }
  else { ws with enabled := enabled }

end WeatherSystem

/-- src/simulation/events.rs: `EventPriority` (`Low < Normal < High < Critical`). -/
inductive EventPriority where
  | Low
  | Normal
  | High
  | Critical
deriving DecidableEq, Repr

namespace EventPriority

/-- The discriminant values assigned in the source (`Low = 1`, …), which
drive its derived `Ord`. -/
def toNat : EventPriority → ℕ
  | .Low => 1
  | .Normal => 2
  | .High => 3
  | .Critical => 4

end EventPriority

/-- src/simulation/events.rs: `SimulationEvent`. -/
inductive SimulationEvent where
  | EmergencyVehicleSpawned (position : Position) (direction : Direction)
  | WeatherChanged (new_weather : WeatherType)
  | TrafficIncident (intersection_id : ℕ) (duration : ℚ)
  | RushHourStarted
  | RushHourEnded
  | TrafficLightMalfunction (intersection_id : ℕ) (duration : ℚ)
  | RoadConstruction (start_position end_position : Position) (duration : ℚ)
  | SpecialEvent (center_position : Position) (radius : ℚ) (duration : ℚ)
      (traffic_impact : ℚ)
  | MaintenanceMode (duration : ℚ)
deriving DecidableEq, Repr

/-- src/simulation/events.rs: `ActiveEvent`. -/
structure ActiveEvent where
  event : SimulationEvent
  started_at : ℚ
  duration : Option ℚ
  persistent : Bool
deriving DecidableEq, Repr

/-- src/simulation/events.rs: `ScheduledEvent`. -/
structure ScheduledEvent where
  event : SimulationEvent
  execute_at : ℚ
  priority : EventPriority
deriving DecidableEq, Repr

/-- src/simulation/events.rs: `RushHourSchedule`. -/
structure RushHourSchedule where
  morning_start : ℚ
  morning_end : ℚ
  evening_start : ℚ
  evening_end : ℚ
  traffic_multiplier : ℚ
  currently_active : Bool
deriving DecidableEq, Repr

/-- src/simulation/events.rs: `RushHourSchedule::default`. -/
def RushHourSchedule.default : RushHourSchedule :=
  { morning_start := 7 * 3600
    morning_end := 9 * 3600
    evening_start := 17 * 3600
    evening_end := 19 * 3600
    traffic_multiplier := 5/2
    currently_active := false }

/-- src/simulation/events.rs: `EventManager`. -/
structure EventManager where
  active_events : List ActiveEvent
  event_queue : List ScheduledEvent
  emergency_enabled : Bool
  rush_hour_enabled : Bool
  incidents_enabled : Bool
  last_emergency_spawn : ℚ
  emergency_cooldown : ℚ
  rush_hour_schedule : RushHourSchedule
  incident_probability : ℚ
  random_events_enabled : Bool
deriving DecidableEq, Repr

/-- The per-tick random draws consumed by the event, weather and spawning
subsystems.  Each random call site in the source reads its own field;
`spawn_type_roll` is indexed by the spawner position in the engine's list. -/
structure Oracle where
  spawn_type_roll : ℕ → ℚ
  emergency_roll : ℚ
  emergency_spawn_idx : ℕ
  incident_roll : ℚ
  incident_intersection : ℕ
  incident_duration : ℕ
  malfunction_roll : ℚ
  malfunction_intersection : ℕ
  malfunction_duration : ℕ
  weather_change_roll : ℚ
  weather_pick_roll : ℚ
  weather_duration_roll : ℕ

/-- An oracle whose probability rolls all come up 1 (≥ every threshold), so
no randomly-triggered event or weather change fires. -/
def Oracle.quiet : Oracle :=
  { spawn_type_roll := fun _ => 1
    emergency_roll := 1
    emergency_spawn_idx := 0
    incident_roll := 1
    incident_intersection := 0
    incident_duration := 0
    malfunction_roll := 1
    malfunction_intersection := 0
    malfunction_duration := 0
    weather_change_roll := 1
    weather_pick_roll := 1
    weather_duration_roll := 0 }

namespace EventManager

/-- src/simulation/events.rs: `EventManager::new` (created at clock `now`;
`last_emergency_spawn` starts 60 s in the past). -/
def new (now : ℚ) : EventManager :=
  { active_events := []
    event_queue := []
    emergency_enabled := true
    rush_hour_enabled := true
    incidents_enabled := true
    last_emergency_spawn := now - 60
    emergency_cooldown := 30
    rush_hour_schedule := RushHourSchedule.default
    incident_probability := 1/1000
    random_events_enabled := true }

/-- src/simulation/events.rs: `EventManager::get_event_duration`. -/
def getEventDuration : SimulationEvent → Option ℚ
  | .TrafficIncident _ duration => some duration
  | .TrafficLightMalfunction _ duration => some duration
  | .RoadConstruction _ _ duration => some duration
  | .SpecialEvent _ _ duration _ => some duration
  | .MaintenanceMode duration => some duration
  | _ => none

/-- The `while let Some(..) = queue.front()` loop of
`process_scheduled_events`: pop arrived events off the front, firing each
and moving it into the active list. -/
def processLoop (now : ℚ) : List ScheduledEvent → List ActiveEvent × List ScheduledEvent × List SimulationEvent
  | [] => ([], [], [])
  | scheduled :: rest =>
      if scheduled.execute_at ≤ now then
        let duration := getEventDuration scheduled.event
        let active_event : ActiveEvent :=
          { event := scheduled.event
            started_at := now
            duration := duration
            persistent := duration.isNone }
        let r := processLoop now rest
        (active_event :: r.1, r.2.1, scheduled.event :: r.2.2)
      else ([], scheduled :: rest, [])

/-- src/simulation/events.rs: `EventManager::process_scheduled_events`;
also returns the fired events appended to `triggered_events`. -/
def processScheduledEvents (em : EventManager) (now : ℚ) :
    EventManager × List SimulationEvent :=
  let (acts, queue, fired) := processLoop now em.event_queue
  ({ em with event_queue := queue, active_events := em.active_events ++ acts }, fired)

/-- src/simulation/events.rs: `EventManager::update_active_events` (prune
expired non-persistent events). -/
def updateActiveEvents (em : EventManager) (now : ℚ) : EventManager :=
  { em with
    active_events := em.active_events.filter fun event =>
      match event.duration with
      | some duration => decide (elapsedSince now event.started_at < duration)
      | none => event.persistent }

/-- src/simulation/events.rs: the fixed spawn position table inside
`check_emergency_vehicle_triggers`. -/
def emergencySpawnPositions : List (Position × Direction) :=
  [(⟨5, 15⟩, .East), (⟨80, 15⟩, .West), (⟨20, 5⟩, .South), (⟨60, 35⟩, .North)]

/-- src/simulation/events.rs: `EventManager::check_emergency_vehicle_triggers`. -/
def checkEmergencyVehicleTriggers (em : EventManager) (now : ℚ) (o : Oracle) :
    EventManager × List SimulationEvent :=
  if !em.emergency_enabled then (em, [])
  else if elapsedSince now em.last_emergency_spawn < em.emergency_cooldown then (em, [])
  else if o.emergency_roll < 1/2000 then
    match emergencySpawnPositions[o.emergency_spawn_idx % 4]? with
    | some (position, direction) =>
        ({ em with last_emergency_spawn := now },
          [.EmergencyVehicleSpawned position direction])
    | none => (em, [])
  else (em, [])

/-- src/simulation/events.rs: `EventManager::check_rush_hour_triggers`
(time of day is derived from seconds elapsed since `last_emergency_spawn`,
truncated and taken mod 24 h, as in the source). -/
def checkRushHourTriggers (em : EventManager) (now : ℚ) :
    EventManager × List SimulationEvent :=
  if !em.rush_hour_enabled then (em, [])
  else
    let simulation_time := (elapsedSince now em.last_emergency_spawn).floor.toNat % (24 * 3600)
    let current_time : ℚ := (simulation_time : ℚ)
    let sched := em.rush_hour_schedule
    let should_be_rush_hour :=
      (current_time ≥ sched.morning_start ∧ current_time ≤ sched.morning_end) ∨
      (current_time ≥ sched.evening_start ∧ current_time ≤ sched.evening_end)
    if should_be_rush_hour ∧ !sched.currently_active then
      ({ em with rush_hour_schedule := { sched with currently_active := true } },
        [.RushHourStarted])
    else if ¬should_be_rush_hour ∧ sched.currently_active then
      ({ em with rush_hour_schedule := { sched with currently_active := false } },
        [.RushHourEnded])
    else (em, [])

/-- src/simulation/events.rs: `EventManager::check_random_event_triggers`
(incident id drawn from `0..4`, duration from `30..120`; malfunction id from
`0..4`, duration from `15..60`). -/
def checkRandomEventTriggers (em : EventManager) (o : Oracle) : List SimulationEvent :=
  if !em.random_events_enabled || !em.incidents_enabled then []
  else
    let incidents :=
      if o.incident_roll < em.incident_probability then
        [SimulationEvent.TrafficIncident (o.incident_intersection % 4)
          ((30 + o.incident_duration % 90 : ℕ) : ℚ)]
      else []
    let malfunctions :=
      if o.malfunction_roll < 1/10000 then
        [SimulationEvent.TrafficLightMalfunction (o.malfunction_intersection % 4)
          ((15 + o.malfunction_duration % 45 : ℕ) : ℚ)]
      else []
    incidents ++ malfunctions

/-- The per-intersection mutation of an active `TrafficIncident`:
`efficiency_score = efficiency_score.min(50.0)`. -/
def incidentCap (i : Intersection) : Intersection :=
  { i with efficiency_score := rmin i.efficiency_score 50 }

/-- The per-intersection mutation of an active `TrafficLightMalfunction`:
force all four lights into emergency override. -/
def malfunctionOverride (now : ℚ) (i : Intersection) : Intersection :=
  { i with lights := DirMap.ofFun fun d => (i.lights.get d).setEmergencyOverride true now }

/-- The effect of one active event on the intersection list, as applied by
`apply_event_effects` (`iter_mut().find(..)` selects the first intersection
with the given id). -/
def applyEffect (intersections : List Intersection) (ae : ActiveEvent) (now : ℚ) :
    List Intersection :=
  match ae.event with
  | .TrafficIncident intersection_id _ =>
      Intersection.modifyFirst (fun i => i.id = intersection_id) incidentCap intersections
  | .TrafficLightMalfunction intersection_id _ =>
      Intersection.modifyFirst (fun i => i.id = intersection_id)
        (malfunctionOverride now) intersections
  | _ => intersections

/-- src/simulation/events.rs: `EventManager::apply_event_effects`. -/
def applyEventEffects (em : EventManager) (intersections : List Intersection) (now : ℚ) :
    List Intersection :=
  em.active_events.foldl (fun acc ae => applyEffect acc ae now) intersections

/-- src/simulation/events.rs: `EventManager::update`.  Returns the updated
manager, the intersections with active-event effects applied, and the
triggered events handed back to the engine.  (The `delta_time` parameter is
unused in the source body as well; all timing there reads the clock.) -/
def update (em : EventManager) (_delta_time : ℚ) (_vehicles : List Vehicle)
    (intersections : List Intersection) (now : ℚ) (o : Oracle) :
    EventManager × List Intersection × List SimulationEvent :=
  let r1 := em.processScheduledEvents now
  let em1 := r1.1.updateActiveEvents now
  let r2 := em1.checkEmergencyVehicleTriggers now o
  let r3 := r2.1.checkRushHourTriggers now
  let ev3 := r3.1.checkRandomEventTriggers o
  (r3.1, r3.1.applyEventEffects intersections now, r1.2 ++ r2.2 ++ r3.2 ++ ev3)

/-- The strict "goes before" test used by `schedule_event` when scanning for
the insertion index. -/
def strictBefore (a b : ScheduledEvent) : Bool :=
  decide (b.priority.toNat < a.priority.toNat) ||
    (a.priority = b.priority && decide (a.execute_at < b.execute_at))

/-- The insertion scan of `schedule_event`: insert before the first queued
event the new one strictly precedes, else push to the back. -/
def insertScheduled (e : ScheduledEvent) : List ScheduledEvent → List ScheduledEvent
  | [] => [e]
  | x :: xs => if strictBefore e x then e :: x :: xs else x :: insertScheduled e xs

/-- src/simulation/events.rs: `EventManager::schedule_event`. -/
def scheduleEvent (em : EventManager) (event : SimulationEvent) (delay : ℚ)
    (priority : EventPriority) (now : ℚ) : EventManager :=
  let scheduled_event : ScheduledEvent :=
    { event := event, execute_at := now + delay, priority := priority }
  { em with event_queue := insertScheduled scheduled_event em.event_queue }

/-- src/simulation/events.rs: `EventManager::set_emergency_enabled`. -/
def setEmergencyEnabled (em : EventManager) (enabled : Bool) : EventManager :=
  { em with emergency_enabled := enabled }

end EventManager

/-- src/simulation/statistics.rs: `SimulationStats`.  The embedding keeps
every field the engine or another subsystem reads back, and the wait-time
aggregates; the remaining fields of the source struct (per-intersection
history maps, congestion/flow analysis, FPS smoothing, efficiency
snapshots) are write-only display analytics that no other component and no
verified property ever reads, and are omitted. -/
structure SimulationStats where
  total_vehicles_spawned : ℕ
  total_vehicles_processed : ℕ
  active_vehicles : ℕ
  emergency_vehicles_spawned : ℕ
  average_wait_time : ℚ
  peak_wait_time : ℚ
  total_wait_time : ℚ
  total_simulation_time : ℚ
  last_update_time : ℚ
  max_vehicles : ℕ
  statistics_enabled : Bool
deriving DecidableEq, Repr

namespace SimulationStats

/-- src/simulation/statistics.rs: `SimulationStats::new` (created at `now`). -/
def new (now : ℚ) : SimulationStats :=
  { total_vehicles_spawned := 0
    total_vehicles_processed := 0
    active_vehicles := 0
    emergency_vehicles_spawned := 0
    average_wait_time := 0
    peak_wait_time := 0
    total_wait_time := 0
    total_simulation_time := 0
    last_update_time := now
    max_vehicles := 100
    statistics_enabled := true }

/-- src/simulation/statistics.rs: `update_vehicle_statistics` restricted to
the embedded fields (active count and the wait-time aggregates). -/
def updateVehicleStatistics (st : SimulationStats) (vehicles : List Vehicle) :
    SimulationStats :=
  let st := { st with active_vehicles := vehicles.length }
  let waiting_vehicles := vehicles.filter fun v => v.state = VehicleState.Waiting
  if waiting_vehicles.isEmpty then st
  else
    let total_wait := (waiting_vehicles.map fun v => v.waited_time).sum
    { st with
      average_wait_time := total_wait / (waiting_vehicles.length : ℚ)
      peak_wait_time := (waiting_vehicles.map fun v => v.waited_time).foldl rmax 0
      total_wait_time := st.total_wait_time + total_wait }

/-- src/simulation/statistics.rs: `SimulationStats::update` on the embedded
fields. -/
def update (st : SimulationStats) (delta_time : ℚ) (vehicles : List Vehicle)
    (_intersections : List Intersection) (now : ℚ) : SimulationStats :=
  if !st.statistics_enabled then st
  else
    let st := { st with total_simulation_time := st.total_simulation_time + delta_time }
    let st := st.updateVehicleStatistics vehicles
    { st with last_update_time := now }

end SimulationStats

/-- src/simulation/mod.rs: `SpawnPoint`. -/
structure SpawnPoint where
  position : Position
  direction : Direction
  active : Bool
  spawn_rate : ℚ
deriving DecidableEq, Repr

/-- src/simulation/mod.rs: `SpawnPoint::new`. -/
def SpawnPoint.new (position : Position) (direction : Direction) (spawn_rate : ℚ) :
    SpawnPoint :=
  { position := position, direction := direction, active := true, spawn_rate := spawn_rate }

/-- src/simulation/mod.rs: `SimulationConfig`. -/
structure SimulationConfig where
  target_fps : ℕ
  max_vehicles : ℕ
  base_spawn_rate : ℚ
  intersection_positions : List Position
  spawn_positions : List (Position × Direction)
  enable_weather : Bool
  enable_emergency_vehicles : Bool
  time_scale : ℚ
deriving Repr

/-- src/simulation/mod.rs: `SimulationError`. -/
inductive SimulationError where
  | InvalidSpawnPoint
  | MaxVehiclesReached
  | IntersectionNotFound
  | SystemNotRunning
  | ConfigurationError (msg : String)
deriving DecidableEq, Repr

/-- src/simulation/mod.rs: `SimulationEngine`. -/
structure SimulationEngine where
  intersections : List Intersection
  vehicles : List Vehicle
  spawners : List VehicleSpawner
  event_manager : EventManager
  weather_system : WeatherSystem
  statistics : SimulationStats
  simulation_time : ℚ
  last_update : ℚ
  running : Bool
  time_scale : ℚ
  spawn_points : List SpawnPoint

namespace SimulationEngine

/-- src/simulation/mod.rs: `SimulationEngine::new` together with
`initialize_from_config` (constructed at clock `now`). -/
def new (config : SimulationConfig) (now : ℚ) : SimulationEngine :=
  let intersections := config.intersection_positions.enum.map fun (id, position) =>
    Intersection.new id position now
  let spawn_points := config.spawn_positions.map fun (position, direction) =>
    SpawnPoint.new position direction config.base_spawn_rate
  let spawners := config.spawn_positions.map fun _ => VehicleSpawner.new config.base_spawn_rate
  let weather_system :=
    if config.enable_weather then (WeatherSystem.new now).setEnabled true
    else WeatherSystem.new now
  let event_manager :=
    if config.enable_emergency_vehicles then (EventManager.new now).setEmergencyEnabled true
    else EventManager.new now
  { intersections := intersections
    vehicles := []
    spawners := spawners
    event_manager := event_manager
    weather_system := weather_system
    statistics := { SimulationStats.new now with max_vehicles := config.max_vehicles }
    simulation_time := 0
    last_update := now
    running := false
    time_scale := config.time_scale
    spawn_points := spawn_points }

/-- src/simulation/mod.rs: `SimulationEngine::start`. -/
def start (s : SimulationEngine) (now : ℚ) : SimulationEngine :=
  { s with running := true, last_update := now, simulation_time := 0 }

/-- src/simulation/mod.rs: `SimulationEngine::stop`. -/
def stop (s : SimulationEngine) : SimulationEngine :=
  { s with running := false }

/-- src/simulation/mod.rs: `SimulationEngine::is_vehicle_out_of_bounds`. -/
def isVehicleOutOfBounds (v : Vehicle) : Bool :=
  decide (v.position.x < -10) || decide (v.position.x > 100) ||
    decide (v.position.y < -10) || decide (v.position.y > 50)

/-- src/simulation/mod.rs: `SimulationEngine::get_next_vehicle_id`
(`max().unwrap_or(0) + 1` over the live vehicle ids). -/
def getNextVehicleId (s : SimulationEngine) : ℕ :=
  (s.vehicles.map Vehicle.id).foldl Nat.max 0 + 1

/-- src/simulation/mod.rs: `SimulationEngine::update_vehicle_spawning`. -/
def updateVehicleSpawning (s : SimulationEngine) (_delta_time now : ℚ) (o : Oracle) :
    SimulationEngine :=
  if s.vehicles.length ≥ s.statistics.max_vehicles then s
  else
    s.spawn_points.enum.foldl
      (fun (acc : SimulationEngine) (entry : ℕ × SpawnPoint) =>
        let (i, spawn_point) := entry
        if !spawn_point.active then acc
        else
          match acc.spawners[i]? with
          | none => acc
          | some spawner =>
              let (vopt, spawner) :=
                spawner.trySpawn spawn_point.position spawn_point.direction now
                  (o.spawn_type_roll i)
              let acc := { acc with spawners := acc.spawners.set i spawner }
              match vopt with
              | none => acc
              | some vehicle =>
                  let position_clear := !acc.vehicles.any fun v =>
                    decide (v.position.distSqTo spawn_point.position < 4)
                  if position_clear then
                    { acc with
                      vehicles := acc.vehicles ++ [vehicle]
                      statistics := { acc.statistics with
                        total_vehicles_spawned := acc.statistics.total_vehicles_spawned + 1 } }
                  else acc)
      s

/-- src/simulation/mod.rs: `SimulationEngine::update_vehicles` (advance each
vehicle, then mark it exited if out of bounds). -/
def updateVehiclesStep (delta_time now : ℚ) (acc : List Vehicle × ℕ) (v : Vehicle) :
    List Vehicle × ℕ :=
  let v := v.update delta_time now
  if isVehicleOutOfBounds v then
    (acc.1 ++ [v.setState .Exited now], acc.2 + 1)
  else (acc.1 ++ [v], acc.2)

def updateVehicles (s : SimulationEngine) (delta_time now : ℚ) : SimulationEngine :=
  let r := s.vehicles.foldl (updateVehiclesStep delta_time now) ([], 0)
  { s with
    vehicles := r.1
    statistics := { s.statistics with
      total_vehicles_processed := s.statistics.total_vehicles_processed + r.2 } }

/-- src/simulation/mod.rs: `SimulationEngine::update_intersections` (each
intersection's update also rewrites the shared vehicle list). -/
def updateIntersectionsStep (now : ℚ) (acc : List Intersection × List Vehicle)
    (i : Intersection) : List Intersection × List Vehicle :=
  let r := i.update acc.2 now
  (acc.1 ++ [r.1], r.2)

def updateIntersections (s : SimulationEngine) (now : ℚ) : SimulationEngine :=
  let r := s.intersections.foldl (updateIntersectionsStep now) ([], s.vehicles)
  { s with intersections := r.1, vehicles := r.2 }

/-- The firing-time mutation of a `TrafficIncident` in
`handle_simulation_event`: `efficiency_score *= 0.5`. -/
def incidentHalve (i : Intersection) : Intersection :=
  { i with efficiency_score := i.efficiency_score * (1/2) }

/-- src/simulation/mod.rs: `SimulationEngine::handle_simulation_event`.  The
source `match` lists exactly these five variants (the remaining
`SimulationEvent` variants are absent there and are embedded as no-ops). -/
def handleSimulationEvent (s : SimulationEngine) (event : SimulationEvent)
    (now : ℚ) (o : Oracle) : SimulationEngine :=
  match event with
  | .EmergencyVehicleSpawned position direction =>
      let emergency_vehicle :=
        Vehicle.new s.getNextVehicleId .Emergency position direction now
      { s with
        vehicles := s.vehicles ++ [emergency_vehicle]
        statistics := { s.statistics with
          emergency_vehicles_spawned := s.statistics.emergency_vehicles_spawned + 1 } }
  | .WeatherChanged new_weather =>
      { s with weather_system :=
          s.weather_system.setCurrentWeather new_weather now o.weather_duration_roll }
  | .TrafficIncident intersection_id _ =>
      let inters :=
        Intersection.modifyFirst (fun i => i.id = intersection_id) incidentHalve s.intersections
      { s with intersections := inters }
  | .RushHourStarted =>
      { s with spawners := s.spawners.map fun sp => sp.setSpawnRate (sp.spawn_rate * 2) }
  | .RushHourEnded =>
      { s with spawners := s.spawners.map fun sp => sp.setSpawnRate (sp.spawn_rate * (1/2)) }
  | _ => s

/-- src/simulation/mod.rs: `SimulationEngine::update_events`; also returns
the triggered-event list for use in statements about the tick. -/
def updateEvents (s : SimulationEngine) (delta_time now : ℚ) (o : Oracle) :
    SimulationEngine × List SimulationEvent :=
  let r := s.event_manager.update delta_time s.vehicles s.intersections now o
  let s1 := { s with event_manager := r.1, intersections := r.2.1 }
  (r.2.2.foldl (fun acc e => acc.handleSimulationEvent e now o) s1, r.2.2)

/-- src/simulation/mod.rs: `SimulationEngine::update_weather` (weather tick,
then reapply the traffic multiplier to every spawner). -/
def updateWeather (s : SimulationEngine) (delta_time now : ℚ) (o : Oracle) :
    SimulationEngine :=
  let ws := s.weather_system.update delta_time now o.weather_change_roll
    o.weather_pick_roll o.weather_duration_roll
  let weather_multiplier := ws.getTrafficMultiplier
  { s with
    weather_system := ws
    spawners := s.spawners.map fun sp =>
      sp.setSpawnRate (sp.spawn_rate / weather_multiplier * weather_multiplier) }

/-- src/simulation/mod.rs: `SimulationEngine::update_statistics`. -/
def updateStatistics (s : SimulationEngine) (delta_time now : ℚ) : SimulationEngine :=
  { s with statistics := s.statistics.update delta_time s.vehicles s.intersections now }

/-- src/simulation/mod.rs: `SimulationEngine::cleanup_vehicles`. -/
def cleanupVehicles (s : SimulationEngine) : SimulationEngine :=
  { s with vehicles := s.vehicles.filter fun v => v.state ≠ VehicleState.Exited }

/-- The scaled tick length computed at the top of `update`:
`now.duration_since(last_update) * time_scale`. -/
def tickDt (s : SimulationEngine) (now : ℚ) : ℚ :=
  elapsedSince now s.last_update * s.time_scale

/-- The clock/time bookkeeping at the start of a running tick. -/
def tickStart (s : SimulationEngine) (now : ℚ) : SimulationEngine :=
  { s with
    last_update := now
    simulation_time := s.simulation_time + s.tickDt now }

/-- The pipeline prefix of `update` that runs before the event phase
(spawning, vehicle motion, intersection updates), at scaled `delta_time`. -/
def tickPreEvents (s : SimulationEngine) (delta_time now : ℚ) (o : Oracle) :
    SimulationEngine :=
  (((s.updateVehicleSpawning delta_time now o).updateVehicles delta_time now).updateIntersections
    now)

/-- src/simulation/mod.rs: `SimulationEngine::update` (one full tick). -/
def update (s : SimulationEngine) (now : ℚ) (o : Oracle) :
    SimulationEngine × Except SimulationError Unit :=
  if !s.running then (s, .ok ())
  else
    let delta_time := elapsedSince now s.last_update * s.time_scale
    let s := { s with
      last_update := now
      simulation_time := s.simulation_time + delta_time }
    let s := s.tickPreEvents delta_time now o
    let (s, _events) := s.updateEvents delta_time now o
    let s := s.updateWeather delta_time now o
    let s := s.updateStatistics delta_time now
    let s := s.cleanupVehicles
    (s, .ok ())

/-- The events triggered during a tick of `update` (the list consumed by
`handle_simulation_event`), recomputed from the same pipeline prefix. -/
def tickTriggeredEvents (s : SimulationEngine) (now : ℚ) (o : Oracle) :
    List SimulationEvent :=
  if !s.running then []
  else
    let delta_time := elapsedSince now s.last_update * s.time_scale
    let s := { s with
      last_update := now
      simulation_time := s.simulation_time + delta_time }
    ((s.tickPreEvents delta_time now o).updateEvents delta_time now o).2

/-- src/simulation/mod.rs: `SimulationEngine::trigger_emergency_vehicle`. -/
def triggerEmergencyVehicle (s : SimulationEngine) (spawn_index : ℕ) (now : ℚ)
    (o : Oracle) : SimulationEngine × Except SimulationError Unit :=
  match s.spawn_points[spawn_index]? with
  | some spawn_point =>
      (s.handleSimulationEvent
        (.EmergencyVehicleSpawned spawn_point.position spawn_point.direction) now o,
        .ok ())
  | none => (s, .error .InvalidSpawnPoint)

/-- src/simulation/mod.rs: `SimulationEngine::increase_traffic_density`. -/
def increaseTrafficDensity (s : SimulationEngine) (multiplier : ℚ) : SimulationEngine :=
  { s with spawners := s.spawners.map fun sp => sp.setSpawnRate (sp.spawn_rate * multiplier) }

/-- src/simulation/mod.rs: `SimulationEngine::decrease_traffic_density`
(the body is identical to `increase_traffic_density`: it multiplies by the
given factor rather than dividing). -/
def decreaseTrafficDensity (s : SimulationEngine) (multiplier : ℚ) : SimulationEngine :=
  { s with spawners := s.spawners.map fun sp => sp.setSpawnRate (sp.spawn_rate * multiplier) }

end SimulationEngine

/-! ### Definitions supporting the verified properties -/

/-- The efficiency formula of `Intersection::calculate_efficiency`, as a
function of the total waiting count and the emergency flag:
`max(0, 100 − 2·waiting)`, plus a flat 10 while emergency mode is active. -/
def efficiencyFormula (waiting : ℕ) (emergency : Bool) : ℚ :=
  rmax (100 - (waiting : ℚ) * 2) 0 + if emergency then 10 else 0

/-- The opposing-direction synchronization invariant: North and South
lights share state, and East and West lights share state. -/
def Intersection.IsSynced (i : Intersection) : Prop :=
  i.lights.south.state = i.lights.north.state ∧ i.lights.west.state = i.lights.east.state

/-- The traffic-density transformation as the spec describes it: every
spawner's rate is multiplied by the factor, subject to the spawner's
minimum-rate clamp in `set_spawn_rate`. -/
def densityTransformSpec (s : SimulationEngine) (f : ℚ) : SimulationEngine :=
  { s with spawners := s.spawners.map fun sp => sp.setSpawnRate (sp.spawn_rate * f) }

/-- Whether the event manager currently holds an active `TrafficIncident`
targeting intersection id `i`. -/
def EventManager.hasActiveIncident (em : EventManager) (i : ℕ) : Bool :=
  em.active_events.any fun ae =>
    match ae.event with
    | .TrafficIncident j _ => j = i
    | _ => false

/-- The scheduled events dequeued by one run of `process_scheduled_events`
at clock `now` (the arrived prefix of the queue). -/
def EventManager.dequeuedEvents (em : EventManager) (now : ℚ) : List ScheduledEvent :=
  em.event_queue.takeWhile fun e => decide (e.execute_at ≤ now)

/-- The ordering `schedule_event` maintains on the pending queue: priority
descending, ties broken by earlier execution time. -/
def queueRel (a b : ScheduledEvent) : Prop :=
  b.priority.toNat < a.priority.toNat ∨
    (a.priority = b.priority ∧ a.execute_at ≤ b.execute_at)

/-- The pending queue is ordered by `queueRel`. -/
def queueOrdered (q : List ScheduledEvent) : Prop := q.Pairwise queueRel

/-- The intersection with id `i`, as selected by the source's
`iter_mut().find(|x| x.id == id)` scans, has efficiency score at most 50. -/
def capAt (i : ℕ) (l : List Intersection) : Prop :=
  ∀ x, l.find? (fun y => decide (y.id = i)) = some x → x.efficiency_score ≤ 50

/-- The intersection with id `i` has the score computed by its own
efficiency formula from its own state. -/
def formulaAt (i : ℕ) (l : List Intersection) : Prop :=
  ∀ x, l.find? (fun y => decide (y.id = i)) = some x →
    x.efficiency_score = efficiencyFormula x.totalWaiting x.emergency_active

/-- A small concrete configuration used to instantiate the engine-level
properties: no intersections, a single eastbound spawn point one cell from
the simulation boundary. -/
def demoConfig : SimulationConfig :=
  { target_fps := 30
    max_vehicles := 100
    base_spawn_rate := 1/2
    intersection_positions := []
    spawn_positions := [(⟨99, 15⟩, .East)]
    enable_weather := true
    enable_emergency_vehicles := true
    time_scale := 1 }

/-- The demo engine, freshly constructed (not running). -/
def demoEngine : SimulationEngine := SimulationEngine.new demoConfig 0

/-- A concrete run of the demo engine: start, trigger an emergency vehicle,
tick twice (the vehicle crosses the x = 100 boundary and is retired), then
trigger a second emergency vehicle. -/
def demoRun1 : SimulationEngine := (demoEngine.start 0 |>.triggerEmergencyVehicle 0 0 Oracle.quiet).1

def demoRun2 : SimulationEngine := (demoRun1.update 1 Oracle.quiet).1

def demoRun3 : SimulationEngine := (demoRun2.update 2 Oracle.quiet).1

def demoRun4 : SimulationEngine := (demoRun3.triggerEmergencyVehicle 0 2 Oracle.quiet).1

/-- A fresh intersection at the origin, constructed at clock 0. -/
def c1Intersection0 : Intersection := Intersection.new 0 ⟨0, 0⟩ 0

/-- An emergency vehicle one cell from that intersection (distance 1 < 5),
which triggers emergency mode on the next update. -/
def c1Emergency : Vehicle := Vehicle.new 1 .Emergency ⟨1, 0⟩ .East 0

/-- The intersection after the update that activates emergency mode: all
four lights forced red with their timers reset to the activation clock. -/
def c1AfterActivate : Intersection := (c1Intersection0.update [c1Emergency] 0).1

/-- The intersection after a later update (clock 20) with the emergency
vehicle gone: emergency mode is released (20 s ≥ 15 s), and in the same
update every light sees 20 s ≥ its 10 s red duration and advances. -/
def c1AfterRelease : Intersection := (c1AfterActivate.update [] 20).1

/-- A concrete configuration with a single intersection at (20, 15). -/
def c5Config : SimulationConfig :=
  { target_fps := 30
    max_vehicles := 100
    base_spawn_rate := 1/2
    intersection_positions := [⟨20, 15⟩]
    spawn_positions := []
    enable_weather := true
    enable_emergency_vehicles := true
    time_scale := 1 }

/-- A started engine with a `TrafficIncident{intersection_id=0, 60s}`
scheduled for immediate execution. -/
def c5Engine : SimulationEngine :=
  let e := (SimulationEngine.new c5Config 0).start 0
  { e with event_manager := e.event_manager.scheduleEvent (.TrafficIncident 0 60) 0 .High 0 }

/-- The engine after one tick: the incident has fired and is active. -/
def c5After : SimulationEngine := (c5Engine.update 1 Oracle.quiet).1

/-- The post-tick intersection with id 0. -/
def c5Inter : Intersection :=
  (c5After.intersections.find? fun y => decide (y.id = 0)).getD (Intersection.new 0 ⟨0, 0⟩ 0)

/-- A concrete exited vehicle. -/
def exitedVehicle : Vehicle :=
  { id := 7
    vehicle_type := .Car
    position := ⟨3, 4⟩
    direction := .East
    state := .Exited
    last_move := 0
    target_position := none
    waited_time := 0 }

end Sim

/-! ### Theorems -/

theorem rmax_eq_max (a b : ℚ) : rmax a b = max a b := by
  by_cases h : a ≤ b <;> simp [rmax, max_def, h]

theorem rmin_eq_min (a b : ℚ) : rmin a b = min a b := by
  by_cases h : a ≤ b <;> simp [rmin, min_def, h]

theorem rmax_nonneg_right (a b : ℚ) (h : 0 ≤ b) : 0 ≤ rmax a b := by
  rw [rmax_eq_max]; exact le_max_of_le_right h

theorem rmin_le_right (a b : ℚ) : rmin a b ≤ b := by
  rw [rmin_eq_min]; exact min_le_right a b

namespace Sim

/-- C2 counterexample: the claim that `update(dt)` "does not increase
`waited_time`" for an exited vehicle is false — the source accumulates
`waited_time += dt` before the exited early-return, so the concrete exited
vehicle gains a second of waited time. -/
theorem exited_vehicle_wait_grows :
    ¬ ((exitedVehicle.update 1 5).waited_time ≤ exitedVehicle.waited_time) := by
  with_unfolding_all decide

/-- C2 (amended): a vehicle whose state is `Exited` keeps its position and
its state across any `update(dt)` call, but its `waited_time` still grows
by `dt`, because the accumulation happens before the exited early-return. -/
theorem exited_vehicle_frame (v : Vehicle) (dt now : ℚ)
    (h : v.state = VehicleState.Exited) :
    (v.update dt now).position = v.position ∧
      (v.update dt now).state = VehicleState.Exited ∧
      (v.update dt now).waited_time = v.waited_time + dt := by
  simp [Vehicle.update, h]

/-- C2 witness: the amended frame property evaluated on the concrete exited
vehicle. -/
theorem exited_vehicle_frame_witness :
    (exitedVehicle.update 1 5).position = exitedVehicle.position ∧
      (exitedVehicle.update 1 5).state = VehicleState.Exited ∧
      (exitedVehicle.update 1 5).waited_time = exitedVehicle.waited_time + 1 :=
  exited_vehicle_frame exitedVehicle 1 5 (by with_unfolding_all decide)

/-- C3: once `set_emergency_override(true)` is applied and not released, a
traffic light stays red with the override set, and `should_change()` is
false, through any number of `update()` calls at arbitrary clock values. -/
theorem override_forces_red (l : TrafficLight) (t0 : ℚ) (ts : List ℚ) (now : ℚ) :
    ((ts.foldl TrafficLight.update (l.setEmergencyOverride true t0)).emergency_override = true) ∧
      ((ts.foldl TrafficLight.update (l.setEmergencyOverride true t0)).state = LightState.Red) ∧
      ((ts.foldl TrafficLight.update (l.setEmergencyOverride true t0)).shouldChange now = false) := by
  have key : ∀ (ts : List ℚ) (m : TrafficLight), m.emergency_override = true →
      m.state = LightState.Red →
      (ts.foldl TrafficLight.update m).emergency_override = true ∧
        (ts.foldl TrafficLight.update m).state = LightState.Red := by
    intro ts
    induction ts with
    | nil => intro m ho hs; exact ⟨ho, hs⟩
    | cons t ts ih =>
        intro m ho hs
        have hstep : (TrafficLight.update m t).emergency_override = true ∧
            (TrafficLight.update m t).state = LightState.Red := by
          simp [TrafficLight.update, ho]
        simpa using ih (TrafficLight.update m t) hstep.1 hstep.2
  have hstart : (l.setEmergencyOverride true t0).emergency_override = true ∧
      (l.setEmergencyOverride true t0).state = LightState.Red := by
    simp [TrafficLight.setEmergencyOverride]
  obtain ⟨ho, hs⟩ := key ts _ hstart.1 hstart.2
  refine ⟨ho, hs, ?_⟩
  simp [TrafficLight.shouldChange, ho]

/-- `calculate_efficiency` writes exactly the efficiency formula of the
state it reads, leaving every other field unchanged. -/
theorem calculateEfficiency_spec (i : Intersection) :
    i.calculateEfficiency.efficiency_score
        = efficiencyFormula i.totalWaiting i.emergency_active ∧
      i.calculateEfficiency.waiting_vehicles = i.waiting_vehicles ∧
      i.calculateEfficiency.emergency_active = i.emergency_active ∧
      i.calculateEfficiency.lights = i.lights := by
  cases h : i.emergency_active <;>
    simp [Intersection.calculateEfficiency, efficiencyFormula, h, mul_comm]

theorem update_score_formula (i : Intersection) (vs : List Vehicle) (now : ℚ) :
    (i.update vs now).1.efficiency_score
      = efficiencyFormula (i.update vs now).1.totalWaiting
          (i.update vs now).1.emergency_active := by
  rw [Intersection.update]
  obtain ⟨h1, h2, h3, h4⟩ :=
    calculateEfficiency_spec ((i.handleEmergencyVehicles vs now).updateTrafficLights now
      |>.manageVehicleFlow vs now).1
  rw [h1]
  congr 1

/-- C4: after any intersection update, the efficiency score equals
`max(0, 100 − 2·total_waiting)` plus a flat 10 while emergency mode is
active; in particular 0 waiting (emergency off) gives 100, 10 gives 80 and
60 gives 0. -/
theorem update_efficiency_formula (i : Intersection) (vs : List Vehicle) (now : ℚ) :
    ((i.update vs now).1.efficiency_score
        = efficiencyFormula (i.update vs now).1.totalWaiting
            (i.update vs now).1.emergency_active) ∧
      efficiencyFormula 0 false = 100 ∧
      efficiencyFormula 10 false = 80 ∧
      efficiencyFormula 60 false = 0 := by
  refine ⟨update_score_formula i vs now, ?_, ?_, ?_⟩
  · with_unfolding_all decide
  · with_unfolding_all decide
  · with_unfolding_all decide

theorem synchronize_synced (i : Intersection) : (i.synchronizeOpposingLights).IsSynced := by
  simp [Intersection.synchronizeOpposingLights, Intersection.IsSynced]

theorem activate_synced (i : Intersection) (now : ℚ) :
    (i.activateEmergencyMode now).IsSynced := by
  simp [Intersection.activateEmergencyMode, Intersection.IsSynced, DirMap.ofFun,
    TrafficLight.setEmergencyOverride]

theorem updateTrafficLights_synced (i : Intersection) (now : ℚ)
    (h : i.emergency_active = false) : (i.updateTrafficLights now).IsSynced := by
  rw [Intersection.updateTrafficLights, h]
  simpa using synchronize_synced _

theorem handleEmergency_cases (i : Intersection) (vs : List Vehicle) (now : ℚ) :
    i.handleEmergencyVehicles vs now = i ∨
      i.handleEmergencyVehicles vs now = i.activateEmergencyMode now ∨
      i.handleEmergencyVehicles vs now = i.deactivateEmergencyMode now := by
  unfold Intersection.handleEmergencyVehicles
  dsimp only
  repeat' split
  all_goals first
    | (left; rfl)
    | (right; left; rfl)
    | (right; right; rfl)

theorem manageVehicleFlowStep_preserves (now : ℚ) (acc : Intersection × List Vehicle)
    (v : Vehicle) :
    ((Intersection.manageVehicleFlowStep now acc v).1.lights = acc.1.lights) ∧
      ((Intersection.manageVehicleFlowStep now acc v).1.emergency_active
        = acc.1.emergency_active) := by
  obtain ⟨i, done⟩ := acc
  unfold Intersection.manageVehicleFlowStep Intersection.addWaitingVehicle
    Intersection.removeWaitingVehicle
  dsimp only
  repeat' split
  all_goals simp

theorem manageVehicleFlow_preserves (i : Intersection) (vs : List Vehicle) (now : ℚ) :
    ((i.manageVehicleFlow vs now).1.lights = i.lights) ∧
      ((i.manageVehicleFlow vs now).1.emergency_active = i.emergency_active) := by
  have key : ∀ (vs : List Vehicle) (acc : Intersection × List Vehicle),
      ((vs.foldl (Intersection.manageVehicleFlowStep now) acc).1.lights = acc.1.lights) ∧
        ((vs.foldl (Intersection.manageVehicleFlowStep now) acc).1.emergency_active
          = acc.1.emergency_active) := by
    intro vs
    induction vs with
    | nil => intro acc; exact ⟨rfl, rfl⟩
    | cons v vs ih =>
        intro acc
        obtain ⟨h1, h2⟩ := manageVehicleFlowStep_preserves now acc v
        obtain ⟨h3, h4⟩ := ih (Intersection.manageVehicleFlowStep now acc v)
        exact ⟨h3.trans h1, h4.trans h2⟩
  exact key vs (i, [])

/-- C1 counterexample: the claim's parenthetical "the two perpendicular
pairs are never simultaneously green" is false — after an emergency episode
all four lights are left red with their timers frozen at the activation
clock, so the update that releases the override (here 20 s later, past both
the 15 s emergency duration and the 10 s red duration) advances all four
lights red→green in the same call. -/
theorem perpendicular_pairs_simultaneously_green :
    (c1AfterRelease.lights.get .North).state = LightState.Green ∧
      (c1AfterRelease.lights.get .South).state = LightState.Green ∧
      (c1AfterRelease.lights.get .East).state = LightState.Green ∧
      (c1AfterRelease.lights.get .West).state = LightState.Green := by
  with_unfolding_all decide

/-- C1 (amended): the opposing-direction synchronization invariant holds of
a freshly constructed intersection and is preserved by every `update()`
call, whether or not emergency mode is active: after the update North and
South lights have identical state, and East and West lights have identical
state.  (The pairs are synchronized, but the two perpendicular pairs can
nevertheless be simultaneously green, as the counterexample shows.) -/
theorem update_preserves_sync :
    (∀ (id : ℕ) (pos : Position) (now : ℚ), (Intersection.new id pos now).IsSynced) ∧
      (∀ (i : Intersection) (vs : List Vehicle) (now : ℚ),
        i.IsSynced → ((i.update vs now).1.IsSynced)) := by
  constructor
  · intro id pos now
    exact ⟨rfl, rfl⟩
  · intro i vs now hsync
    rw [Intersection.update]
    have transport : ∀ j : Intersection, j.IsSynced →
        ((j.manageVehicleFlow vs now).1.calculateEfficiency).IsSynced := by
      intro j hj
      have hm := (manageVehicleFlow_preserves j vs now).1
      have hc := (calculateEfficiency_spec (j.manageVehicleFlow vs now).1).2.2.2
      unfold Intersection.IsSynced at hj ⊢
      rw [hc, hm]
      exact hj
    rcases handleEmergency_cases i vs now with h | h | h
    · rw [h]
      by_cases hem : i.emergency_active = true
      · have : i.updateTrafficLights now = i := by
          rw [Intersection.updateTrafficLights, hem]
          simp
        rw [this]
        exact transport i hsync
      · have hem' : i.emergency_active = false := by
          simpa using hem
        exact transport _ (updateTrafficLights_synced i now hem')
    · rw [h]
      have hact : (i.activateEmergencyMode now).emergency_active = true := rfl
      have : (i.activateEmergencyMode now).updateTrafficLights now
          = i.activateEmergencyMode now := by
        rw [Intersection.updateTrafficLights, hact]
        simp
      rw [this]
      exact transport _ (activate_synced i now)
    · rw [h]
      have hdea : (i.deactivateEmergencyMode now).emergency_active = false := rfl
      exact transport _ (updateTrafficLights_synced _ now hdea)

/-- C1 witness: a freshly constructed intersection updated once. -/
theorem update_preserves_sync_witness :
    ((Intersection.new 0 ⟨0, 0⟩ 0).update [] 1).1.IsSynced :=
  update_preserves_sync.2 (Intersection.new 0 ⟨0, 0⟩ 0) [] 1 ⟨rfl, rfl⟩

theorem priority_toNat_inj (p q : EventPriority) (h : p.toNat = q.toNat) : p = q := by
  cases p <;> cases q <;> first | rfl | simp [EventPriority.toNat] at h

theorem queueRel_of_strictBefore {a b : ScheduledEvent}
    (h : EventManager.strictBefore a b = true) : queueRel a b := by
  unfold EventManager.strictBefore at h
  rw [Bool.or_eq_true, Bool.and_eq_true] at h
  rcases h with h | ⟨h1, h2⟩
  · exact Or.inl (of_decide_eq_true h)
  · exact Or.inr ⟨of_decide_eq_true h1, le_of_lt (of_decide_eq_true h2)⟩

theorem queueRel_of_not_strictBefore {a b : ScheduledEvent}
    (h : EventManager.strictBefore a b = false) : queueRel b a := by
  unfold EventManager.strictBefore at h
  rw [Bool.or_eq_false_iff, Bool.and_eq_false_iff] at h
  obtain ⟨h1, h2⟩ := h
  have hle : a.priority.toNat ≤ b.priority.toNat := by
    have := of_decide_eq_false h1
    omega
  rcases lt_or_eq_of_le hle with hlt | heq
  · exact Or.inl hlt
  · have hp : a.priority = b.priority := priority_toNat_inj _ _ heq
    rcases h2 with h2 | h2
    · exact absurd (decide_eq_true_eq.mpr hp) (by simpa using h2)
    · have : ¬ (a.execute_at < b.execute_at) := of_decide_eq_false h2
      exact Or.inr ⟨hp.symm, le_of_not_lt this⟩

theorem queueRel_trans {a b c : ScheduledEvent} (h1 : queueRel a b) (h2 : queueRel b c) :
    queueRel a c := by
  rcases h1 with h1 | ⟨h1p, h1t⟩
  · rcases h2 with h2 | ⟨h2p, h2t⟩
    · exact Or.inl (by omega)
    · have := congrArg EventPriority.toNat h2p
      exact Or.inl (by omega)
  · rcases h2 with h2 | ⟨h2p, h2t⟩
    · have := congrArg EventPriority.toNat h1p
      exact Or.inl (by omega)
    · exact Or.inr ⟨h1p.trans h2p, le_trans h1t h2t⟩

theorem mem_insertScheduled {e x : ScheduledEvent} {q : List ScheduledEvent} :
    x ∈ EventManager.insertScheduled e q ↔ x = e ∨ x ∈ q := by
  induction q with
  | nil => simp [EventManager.insertScheduled]
  | cons y ys ih =>
      rw [EventManager.insertScheduled]
      by_cases hb : EventManager.strictBefore e y = true
      · rw [if_pos hb]
        simp only [List.mem_cons]
      · rw [if_neg hb]
        simp only [List.mem_cons, ih]
        tauto

theorem pairwise_insertScheduled (e : ScheduledEvent) (q : List ScheduledEvent)
    (h : q.Pairwise queueRel) : (EventManager.insertScheduled e q).Pairwise queueRel := by
  induction q with
  | nil => simp [EventManager.insertScheduled]
  | cons x xs ih =>
      rw [List.pairwise_cons] at h
      obtain ⟨hx, hxs⟩ := h
      rw [EventManager.insertScheduled]
      by_cases hb : EventManager.strictBefore e x = true
      · rw [if_pos hb]
        rw [List.pairwise_cons]
        refine ⟨?_, List.pairwise_cons.mpr ⟨hx, hxs⟩⟩
        intro y hy
        rcases List.mem_cons.mp hy with rfl | hy
        · exact queueRel_of_strictBefore hb
        · exact queueRel_trans (queueRel_of_strictBefore hb) (hx y hy)
      · rw [if_neg hb]
        rw [List.pairwise_cons]
        refine ⟨?_, ih hxs⟩
        intro y hy
        rcases mem_insertScheduled.mp hy with rfl | hy
        · exact queueRel_of_not_strictBefore (Bool.eq_false_iff.mpr hb)
        · exact hx y hy

theorem processLoop_spec (now : ℚ) (q : List ScheduledEvent) :
    (EventManager.processLoop now q).2.1
        = q.dropWhile (fun e => decide (e.execute_at ≤ now)) ∧
      (EventManager.processLoop now q).2.2
        = (q.takeWhile fun e => decide (e.execute_at ≤ now)).map ScheduledEvent.event := by
  induction q with
  | nil => simp [EventManager.processLoop]
  | cons x xs ih =>
      rw [EventManager.processLoop]
      by_cases h : x.execute_at ≤ now
      · simp [h, ih.1, ih.2, List.takeWhile_cons, List.dropWhile_cons]
      · simp [h, List.takeWhile_cons, List.dropWhile_cons]

/-- C7: the pending event queue is always ordered by priority descending
with ties broken by earlier execution time (true initially and preserved by
`schedule_event`); the dequeue loop fires exactly the arrived prefix, so
every dequeued event satisfies `execute_at <= now`, and a dequeued event is
never of lower priority than an arrived event still queued. -/
theorem event_queue_ordering :
    (∀ now : ℚ, queueOrdered (EventManager.new now).event_queue) ∧
      (∀ (em : EventManager) (ev : SimulationEvent) (d : ℚ) (p : EventPriority) (now : ℚ),
        queueOrdered em.event_queue →
          queueOrdered (em.scheduleEvent ev d p now).event_queue) ∧
      (∀ (em : EventManager) (now : ℚ),
        (em.processScheduledEvents now).2
          = (em.dequeuedEvents now).map ScheduledEvent.event) ∧
      (∀ (em : EventManager) (now : ℚ) (e : ScheduledEvent),
        e ∈ em.dequeuedEvents now → e.execute_at ≤ now) ∧
      (∀ (em : EventManager) (now : ℚ), queueOrdered em.event_queue →
        ∀ e ∈ em.dequeuedEvents now,
          ∀ e' ∈ (em.processScheduledEvents now).1.event_queue,
            e'.execute_at ≤ now → ¬ (e.priority.toNat < e'.priority.toNat)) := by
  refine ⟨?_, ?_, ?_, ?_, ?_⟩
  · intro now
    simp [EventManager.new, queueOrdered]
  · intro em ev d p now h
    exact pairwise_insertScheduled _ _ h
  · intro em now
    exact (processLoop_spec now em.event_queue).2
  · intro em now e he
    have := List.mem_takeWhile_imp he
    exact of_decide_eq_true this
  · intro em now h e he e' he' _harrived hlt
    have hqueue : (em.processScheduledEvents now).1.event_queue
        = em.event_queue.dropWhile (fun e => decide (e.execute_at ≤ now)) :=
      (processLoop_spec now em.event_queue).1
    rw [hqueue] at he'
    have hsplit : em.event_queue
        = em.event_queue.takeWhile (fun e => decide (e.execute_at ≤ now)) ++
            em.event_queue.dropWhile (fun e => decide (e.execute_at ≤ now)) :=
      (List.takeWhile_append_dropWhile _ _).symm
    have hpw : (em.event_queue.takeWhile (fun e => decide (e.execute_at ≤ now)) ++
        em.event_queue.dropWhile (fun e => decide (e.execute_at ≤ now))).Pairwise queueRel := by
      rw [← hsplit]; exact h
    have hrel : queueRel e e' := (List.pairwise_append.mp hpw).2.2 e he e' he'
    rcases hrel with hrel | ⟨hrel, _⟩
    · omega
    · have := congrArg EventPriority.toNat hrel
      omega

/-- C7 witness: a concrete instantiation — scheduling onto the fresh
manager's (sorted, empty) queue preserves the ordering, and dequeuing from
it satisfies the arrival bound. -/
theorem event_queue_ordering_witness :
    queueOrdered ((EventManager.new 0).scheduleEvent .RushHourStarted 5 .High 0).event_queue :=
  event_queue_ordering.2.1 (EventManager.new 0) .RushHourStarted 5 .High 0
    (event_queue_ordering.1 0)

theorem le_foldl_natMax (l : List ℕ) (a x : ℕ) (hx : x ∈ l ∨ x ≤ a) :
    x ≤ l.foldl Nat.max a := by
  induction l generalizing a with
  | nil =>
      rcases hx with hx | hx
      · cases hx
      · exact hx
  | cons y ys ih =>
      rcases hx with hx | hx
      · rcases List.mem_cons.mp hx with rfl | hx
        · exact ih (Nat.max a x) (Or.inr (Nat.le_max_right a x))
        · exact ih (Nat.max a y) (Or.inl hx)
      · exact ih (Nat.max a y) (Or.inr (le_trans hx (Nat.le_max_left a y)))

/-- C6 counterexample: on a concrete engine run, the first emergency
trigger assigns vehicle id 1; after two ticks that vehicle exits the bounds
and is retired, and the next emergency trigger assigns id 1 again — so a
newly created vehicle's id is not strictly greater than every id assigned
before it. -/
theorem vehicle_id_reused :
    demoRun1.vehicles.map Vehicle.id = [1] ∧
      demoRun3.vehicles = [] ∧
      demoRun4.vehicles.map Vehicle.id = [1] ∧
      ¬ (∀ v1 ∈ demoRun1.vehicles, ∀ v2 ∈ demoRun4.vehicles, v1.id < v2.id) := by
  with_unfolding_all decide

/-- C6 (amended): id assignment is only locally monotone — an emergency
spawn's id (`max(live ids) + 1`) is strictly greater than every currently
live vehicle's id, and each spawner's own counter assigns strictly
increasing ids across its spawns; but ids of retired vehicles can be
reassigned, so ids are not unique or monotone across a whole run. -/
theorem vehicle_id_partial_uniqueness :
    (∀ (s : SimulationEngine) (v : Vehicle), v ∈ s.vehicles → v.id < s.getNextVehicleId) ∧
      (∀ (sp : VehicleSpawner) (pos : Position) (dir : Direction) (now roll : ℚ)
        (v : Vehicle) (sp' : VehicleSpawner),
        sp.trySpawn pos dir now roll = (some v, sp') →
          sp.vehicle_id_counter < v.id ∧ sp'.vehicle_id_counter = v.id) := by
  constructor
  · intro s v hv
    have : v.id ≤ (s.vehicles.map Vehicle.id).foldl Nat.max 0 :=
      le_foldl_natMax _ 0 _ (Or.inl (List.mem_map_of_mem Vehicle.id hv))
    unfold SimulationEngine.getNextVehicleId
    omega
  · intro sp pos dir now roll v sp' h
    rw [VehicleSpawner.trySpawn] at h
    split at h
    · simp at h
    · split at h
      · rw [Prod.mk.injEq] at h
        obtain ⟨hv, hsp⟩ := h
        obtain rfl := Option.some.inj hv
        refine ⟨?_, ?_⟩
        · show sp.vehicle_id_counter < (Vehicle.new (sp.vehicle_id_counter + 1) _ _ _ _).id
          simp [Vehicle.new]
        · rw [← hsp]
          simp [Vehicle.new]
      · simp at h

/-- C6 witness: the amended bound evaluated on the concrete run — the live
emergency vehicle's id is below `get_next_vehicle_id`. -/
theorem vehicle_id_partial_uniqueness_witness :
    (Vehicle.new 1 VehicleType.Emergency ⟨99, 15⟩ Direction.East 0).id
      < demoRun1.getNextVehicleId :=
  vehicle_id_partial_uniqueness.1 demoRun1 _ (by with_unfolding_all decide)

/-- C9: while the engine is stopped, `update()` returns `Ok(())` and leaves
the entire engine state unchanged. -/
theorem update_while_stopped_noop (s : SimulationEngine) (now : ℚ) (o : Oracle)
    (h : s.running = false) : s.update now o = (s, Except.ok ()) := by
  simp [SimulationEngine.update, h]

/-- C9 witness: the freshly constructed (not yet started) demo engine. -/
theorem update_while_stopped_noop_witness :
    demoEngine.update 3 Oracle.quiet = (demoEngine, Except.ok ()) :=
  update_while_stopped_noop demoEngine 3 Oracle.quiet (by with_unfolding_all decide)

/-- C8: `trigger_emergency_vehicle(spawn_index)` fails with
`InvalidSpawnPoint` and leaves the engine unchanged exactly when the index
is out of range of the configured spawn points; for an in-range index it
returns `Ok` and appends exactly one new `Emergency`-type vehicle at that
spawn point's position and direction. -/
theorem trigger_emergency_spec (s : SimulationEngine) (idx : ℕ) (now : ℚ) (o : Oracle) :
    (s.spawn_points[idx]? = none ↔ s.spawn_points.length ≤ idx) ∧
      (s.spawn_points[idx]? = none →
        s.triggerEmergencyVehicle idx now o
          = (s, Except.error SimulationError.InvalidSpawnPoint)) ∧
      (∀ sp, s.spawn_points[idx]? = some sp →
        (s.triggerEmergencyVehicle idx now o).2 = Except.ok () ∧
          (s.triggerEmergencyVehicle idx now o).1.vehicles
            = s.vehicles ++
                [Vehicle.new s.getNextVehicleId VehicleType.Emergency sp.position
                  sp.direction now] ∧
          (Vehicle.new s.getNextVehicleId VehicleType.Emergency sp.position
              sp.direction now).vehicle_type = VehicleType.Emergency ∧
          (Vehicle.new s.getNextVehicleId VehicleType.Emergency sp.position
              sp.direction now).position = sp.position ∧
          (Vehicle.new s.getNextVehicleId VehicleType.Emergency sp.position
              sp.direction now).direction = sp.direction) := by
  refine ⟨List.getElem?_eq_none_iff, ?_, ?_⟩
  · intro h
    simp [SimulationEngine.triggerEmergencyVehicle, h]
  · intro sp h
    simp [SimulationEngine.triggerEmergencyVehicle, h,
      SimulationEngine.handleSimulationEvent, Vehicle.new]

/-- C8 witness: on the demo engine, index 5 is rejected with
`InvalidSpawnPoint` and index 0 succeeds. -/
theorem trigger_emergency_spec_witness :
    (demoEngine.triggerEmergencyVehicle 5 0 Oracle.quiet
        = (demoEngine, Except.error SimulationError.InvalidSpawnPoint)) ∧
      ((demoEngine.triggerEmergencyVehicle 0 0 Oracle.quiet).2 = Except.ok ()) :=
  ⟨(trigger_emergency_spec demoEngine 5 0 Oracle.quiet).2.1 (by with_unfolding_all decide),
    ((trigger_emergency_spec demoEngine 0 0 Oracle.quiet).2.2
      { position := ⟨99, 15⟩, direction := .East, active := true, spawn_rate := 1/2 }
      (by with_unfolding_all decide)).1⟩

theorem find?_modifyFirst_same (f : Intersection → Intersection)
    (hf : ∀ x, (f x).id = x.id) (i : ℕ) (l : List Intersection) :
    (Intersection.modifyFirst (fun y => decide (y.id = i)) f l).find?
        (fun y => decide (y.id = i))
      = (l.find? (fun y => decide (y.id = i))).map f := by
  induction l with
  | nil => rfl
  | cons x xs ih =>
      rw [Intersection.modifyFirst]
      by_cases hx : x.id = i
      · have hpx : decide (x.id = i) = true := decide_eq_true_eq.mpr hx
        have hpfx : decide ((f x).id = i) = true := decide_eq_true_eq.mpr ((hf x).symm ▸ hx)
        rw [if_pos hpx]
        simp only [List.find?_cons, hpfx, hpx]
        rfl
      · have hpx : decide (x.id = i) = false := decide_eq_false_iff_not.mpr hx
        rw [if_neg (by simp [hx])]
        simp only [List.find?_cons, hpx]
        exact ih

theorem find?_modifyFirst_other (f : Intersection → Intersection)
    (hf : ∀ x, (f x).id = x.id) {i j : ℕ} (hij : j ≠ i) (l : List Intersection) :
    (Intersection.modifyFirst (fun y => decide (y.id = j)) f l).find?
        (fun y => decide (y.id = i))
      = l.find? (fun y => decide (y.id = i)) := by
  induction l with
  | nil => rfl
  | cons x xs ih =>
      rw [Intersection.modifyFirst]
      by_cases hxj : x.id = j
      · have hpx : decide (x.id = j) = true := decide_eq_true_eq.mpr hxj
        have hxi : decide (x.id = i) = false := decide_eq_false_iff_not.mpr (by
          rw [hxj]; exact hij)
        have hfxi : decide ((f x).id = i) = false := decide_eq_false_iff_not.mpr (by
          rw [hf x, hxj]; exact hij)
        rw [if_pos hpx]
        simp only [List.find?_cons, hfxi, hxi]
      · have hpx : decide (x.id = j) = false := decide_eq_false_iff_not.mpr hxj
        rw [if_neg (by simp [hxj])]
        by_cases hxi : x.id = i
        · have h1 : decide (x.id = i) = true := decide_eq_true_eq.mpr hxi
          simp only [List.find?_cons, h1]
        · have h1 : decide (x.id = i) = false := decide_eq_false_iff_not.mpr hxi
          simp only [List.find?_cons, h1]
          exact ih

theorem capAt_applyEffect (i : ℕ) (l : List Intersection) (ae : ActiveEvent) (now : ℚ)
    (h : capAt i l) : capAt i (EventManager.applyEffect l ae now) := by
  obtain ⟨ev, st, dur, pers⟩ := ae
  unfold EventManager.applyEffect
  cases ev with
  | TrafficIncident j d =>
      dsimp only
      by_cases hji : j = i
      · subst hji
        intro x hx
        rw [find?_modifyFirst_same EventManager.incidentCap (fun _ => rfl)] at hx
        obtain ⟨x0, _, rfl⟩ := Option.map_eq_some'.mp hx
        exact rmin_le_right _ _
      · intro x hx
        rw [find?_modifyFirst_other EventManager.incidentCap (fun _ => rfl) hji] at hx
        exact h x hx
  | TrafficLightMalfunction j d =>
      dsimp only
      by_cases hji : j = i
      · subst hji
        intro x hx
        rw [find?_modifyFirst_same (EventManager.malfunctionOverride now) (fun _ => rfl)] at hx
        obtain ⟨x0, hx0, rfl⟩ := Option.map_eq_some'.mp hx
        exact h x0 hx0
      · intro x hx
        rw [find?_modifyFirst_other (EventManager.malfunctionOverride now) (fun _ => rfl) hji] at hx
        exact h x hx
  | EmergencyVehicleSpawned p dir => exact h
  | WeatherChanged w => exact h
  | RushHourStarted => exact h
  | RushHourEnded => exact h
  | RoadConstruction a b d => exact h
  | SpecialEvent a r d t => exact h
  | MaintenanceMode d => exact h

theorem capAt_applyEffect_incident (i : ℕ) (d : ℚ) (l : List Intersection)
    (ae : ActiveEvent) (now : ℚ) (hae : ae.event = SimulationEvent.TrafficIncident i d) :
    capAt i (EventManager.applyEffect l ae now) := by
  unfold EventManager.applyEffect
  rw [hae]
  dsimp only
  intro x hx
  rw [find?_modifyFirst_same EventManager.incidentCap (fun _ => rfl)] at hx
  obtain ⟨x0, _, rfl⟩ := Option.map_eq_some'.mp hx
  exact rmin_le_right _ _

theorem capAt_fold_preserve (i : ℕ) (now : ℚ) (aes : List ActiveEvent)
    (l : List Intersection) (h : capAt i l) :
    capAt i (aes.foldl (fun acc ae => EventManager.applyEffect acc ae now) l) := by
  induction aes generalizing l with
  | nil => exact h
  | cons a rest ih =>
      exact ih _ (capAt_applyEffect i l a now h)

theorem capAt_fold_establish (i : ℕ) (now : ℚ) (aes : List ActiveEvent)
    (l : List Intersection)
    (h : ∃ ae ∈ aes, ∃ d, ae.event = SimulationEvent.TrafficIncident i d) :
    capAt i (aes.foldl (fun acc ae => EventManager.applyEffect acc ae now) l) := by
  induction aes generalizing l with
  | nil =>
      obtain ⟨ae, hmem, _⟩ := h
      cases hmem
  | cons a rest ih =>
      obtain ⟨ae, hmem, d, hae⟩ := h
      rcases List.mem_cons.mp hmem with rfl | hmem'
      · simp only [List.foldl_cons]
        exact capAt_fold_preserve i now rest _ (capAt_applyEffect_incident i d l ae now hae)
      · simp only [List.foldl_cons]
        exact ih _ ⟨ae, hmem', d, hae⟩

theorem formulaAt_applyEffect (i : ℕ) (l : List Intersection) (ae : ActiveEvent) (now : ℚ)
    (hnot : ∀ d, ae.event ≠ SimulationEvent.TrafficIncident i d)
    (h : formulaAt i l) : formulaAt i (EventManager.applyEffect l ae now) := by
  obtain ⟨ev, st, dur, pers⟩ := ae
  unfold EventManager.applyEffect
  cases ev with
  | TrafficIncident j d =>
      dsimp only
      have hji : j ≠ i := by
        intro hji
        exact hnot d (by rw [hji])
      intro x hx
      rw [find?_modifyFirst_other EventManager.incidentCap (fun _ => rfl) hji] at hx
      exact h x hx
  | TrafficLightMalfunction j d =>
      dsimp only
      by_cases hji : j = i
      · subst hji
        intro x hx
        rw [find?_modifyFirst_same (EventManager.malfunctionOverride now) (fun _ => rfl)] at hx
        obtain ⟨x0, hx0, rfl⟩ := Option.map_eq_some'.mp hx
        exact h x0 hx0
      · intro x hx
        rw [find?_modifyFirst_other (EventManager.malfunctionOverride now) (fun _ => rfl) hji] at hx
        exact h x hx
  | EmergencyVehicleSpawned p dir => exact h
  | WeatherChanged w => exact h
  | RushHourStarted => exact h
  | RushHourEnded => exact h
  | RoadConstruction a b d => exact h
  | SpecialEvent a r d t => exact h
  | MaintenanceMode d => exact h

theorem formulaAt_fold (i : ℕ) (now : ℚ) (aes : List ActiveEvent) (l : List Intersection)
    (hnone : ∀ ae ∈ aes, ∀ d, ae.event ≠ SimulationEvent.TrafficIncident i d)
    (h : formulaAt i l) :
    formulaAt i (aes.foldl (fun acc ae => EventManager.applyEffect acc ae now) l) := by
  induction aes generalizing l with
  | nil => exact h
  | cons a rest ih =>
      simp only [List.foldl_cons]
      exact ih _ (fun ae hm => hnone ae (List.mem_cons_of_mem a hm))
        (formulaAt_applyEffect i l a now (hnone a (List.mem_cons_self a rest)) h)

theorem handle_event_manager (s : SimulationEngine) (e : SimulationEvent) (now : ℚ)
    (o : Oracle) : (s.handleSimulationEvent e now o).event_manager = s.event_manager := by
  cases e <;> rfl

theorem handle_fold_event_manager (evs : List SimulationEvent) (s : SimulationEngine)
    (now : ℚ) (o : Oracle) :
    ((evs.foldl (fun acc e => acc.handleSimulationEvent e now o) s).event_manager)
      = s.event_manager := by
  induction evs generalizing s with
  | nil => rfl
  | cons e rest ih =>
      rw [List.foldl_cons, ih, handle_event_manager]

theorem capAt_handle (i : ℕ) (s : SimulationEngine) (e : SimulationEvent) (now : ℚ)
    (o : Oracle) (h : capAt i s.intersections) :
    capAt i (s.handleSimulationEvent e now o).intersections := by
  cases e with
  | TrafficIncident j d =>
      unfold SimulationEngine.handleSimulationEvent
      dsimp only
      by_cases hji : j = i
      · subst hji
        intro x hx
        rw [find?_modifyFirst_same SimulationEngine.incidentHalve (fun _ => rfl)] at hx
        obtain ⟨x0, hx0, rfl⟩ := Option.map_eq_some'.mp hx
        have h50 := h x0 hx0
        show x0.efficiency_score * (1/2) ≤ 50
        linarith
      · intro x hx
        rw [find?_modifyFirst_other SimulationEngine.incidentHalve (fun _ => rfl) hji] at hx
        exact h x hx
  | EmergencyVehicleSpawned p dir => exact h
  | WeatherChanged w => exact h
  | RushHourStarted => exact h
  | RushHourEnded => exact h
  | TrafficLightMalfunction j d => exact h
  | RoadConstruction a b d => exact h
  | SpecialEvent a r d t => exact h
  | MaintenanceMode d => exact h

theorem capAt_handle_fold (i : ℕ) (evs : List SimulationEvent) (s : SimulationEngine)
    (now : ℚ) (o : Oracle) (h : capAt i s.intersections) :
    capAt i ((evs.foldl (fun acc e => acc.handleSimulationEvent e now o) s).intersections) := by
  induction evs generalizing s with
  | nil => exact h
  | cons e rest ih =>
      rw [List.foldl_cons]
      exact ih _ (capAt_handle i s e now o h)

theorem formulaAt_handle (i : ℕ) (s : SimulationEngine) (e : SimulationEvent) (now : ℚ)
    (o : Oracle) (hnot : ∀ d, e ≠ SimulationEvent.TrafficIncident i d)
    (h : formulaAt i s.intersections) :
    formulaAt i (s.handleSimulationEvent e now o).intersections := by
  cases e with
  | TrafficIncident j d =>
      unfold SimulationEngine.handleSimulationEvent
      dsimp only
      have hji : j ≠ i := by
        intro hji
        exact hnot d (by rw [hji])
      intro x hx
      rw [find?_modifyFirst_other SimulationEngine.incidentHalve (fun _ => rfl) hji] at hx
      exact h x hx
  | EmergencyVehicleSpawned p dir => exact h
  | WeatherChanged w => exact h
  | RushHourStarted => exact h
  | RushHourEnded => exact h
  | TrafficLightMalfunction j d => exact h
  | RoadConstruction a b d => exact h
  | SpecialEvent a r d t => exact h
  | MaintenanceMode d => exact h

theorem formulaAt_handle_fold (i : ℕ) (evs : List SimulationEvent) (s : SimulationEngine)
    (now : ℚ) (o : Oracle)
    (hnone : ∀ e ∈ evs, ∀ d, e ≠ SimulationEvent.TrafficIncident i d)
    (h : formulaAt i s.intersections) :
    formulaAt i
      ((evs.foldl (fun acc e => acc.handleSimulationEvent e now o) s).intersections) := by
  induction evs generalizing s with
  | nil => exact h
  | cons e rest ih =>
      rw [List.foldl_cons]
      exact ih _ (fun e2 he2 => hnone e2 (List.mem_cons_of_mem e he2))
        (formulaAt_handle i s e now o (hnone e (List.mem_cons_self e rest)) h)

theorem hasActiveIncident_iff (em : EventManager) (i : ℕ) :
    em.hasActiveIncident i = true ↔
      ∃ ae ∈ em.active_events, ∃ d, ae.event = SimulationEvent.TrafficIncident i d := by
  unfold EventManager.hasActiveIncident
  rw [List.any_eq_true]
  constructor
  · rintro ⟨ae, hmem, hb⟩
    cases hev : ae.event with
    | TrafficIncident j d =>
        rw [hev] at hb
        dsimp only at hb
        refine ⟨ae, hmem, d, ?_⟩
        rw [hev, of_decide_eq_true hb]
    | EmergencyVehicleSpawned p dir => rw [hev] at hb; simp at hb
    | WeatherChanged w => rw [hev] at hb; simp at hb
    | RushHourStarted => rw [hev] at hb; simp at hb
    | RushHourEnded => rw [hev] at hb; simp at hb
    | TrafficLightMalfunction j d => rw [hev] at hb; simp at hb
    | RoadConstruction a b d => rw [hev] at hb; simp at hb
    | SpecialEvent a r d t => rw [hev] at hb; simp at hb
    | MaintenanceMode d => rw [hev] at hb; simp at hb
  · rintro ⟨ae, hmem, d, hev⟩
    refine ⟨ae, hmem, ?_⟩
    rw [hev]
    simp

theorem updateIntersections_member_formula (s : SimulationEngine) (now : ℚ) :
    ∀ x ∈ (s.updateIntersections now).intersections,
      x.efficiency_score = efficiencyFormula x.totalWaiting x.emergency_active := by
  have key : ∀ (l : List Intersection) (acc : List Intersection × List Vehicle),
      (∀ x ∈ acc.1, x.efficiency_score = efficiencyFormula x.totalWaiting x.emergency_active) →
      ∀ x ∈ (l.foldl (SimulationEngine.updateIntersectionsStep now) acc).1,
        x.efficiency_score = efficiencyFormula x.totalWaiting x.emergency_active := by
    intro l
    induction l with
    | nil => intro acc hacc; exact hacc
    | cons i0 rest ih =>
        intro acc hacc
        rw [List.foldl_cons]
        apply ih
        intro x hx
        unfold SimulationEngine.updateIntersectionsStep at hx
        dsimp only at hx
        rcases List.mem_append.mp hx with hx | hx
        · exact hacc x hx
        · rcases List.mem_singleton.mp hx with rfl
          exact update_score_formula i0 acc.2 now
  intro x hx
  exact key s.intersections ([], s.vehicles) (by intro y hy; cases hy) x hx

theorem tickPreEvents_member_formula (x : SimulationEngine) (dt now : ℚ) (o : Oracle) :
    ∀ y ∈ (x.tickPreEvents dt now o).intersections,
      y.efficiency_score = efficiencyFormula y.totalWaiting y.emergency_active :=
  updateIntersections_member_formula ((x.updateVehicleSpawning dt now o).updateVehicles dt now)
    now

theorem updateEvents_decomp (s : SimulationEngine) (dt now : ℚ) (o : Oracle) :
    s.updateEvents dt now o
      = ((s.event_manager.update dt s.vehicles s.intersections now o).2.2.foldl
          (fun acc e => acc.handleSimulationEvent e now o)
          { s with
            event_manager := (s.event_manager.update dt s.vehicles s.intersections now o).1
            intersections := (s.event_manager.update dt s.vehicles s.intersections now o).2.1 },
        (s.event_manager.update dt s.vehicles s.intersections now o).2.2) := rfl

theorem emUpdate_inters (em : EventManager) (dt : ℚ) (v : List Vehicle)
    (l : List Intersection) (now : ℚ) (o : Oracle) :
    (em.update dt v l now o).2.1 = (em.update dt v l now o).1.applyEventEffects l now := rfl

theorem events_phase (s2 : SimulationEngine) (dt now : ℚ) (o : Oracle) (i : ℕ)
    (hform : formulaAt i s2.intersections) :
    ((s2.updateEvents dt now o).1.event_manager.hasActiveIncident i = true →
        capAt i (s2.updateEvents dt now o).1.intersections) ∧
      ((s2.updateEvents dt now o).1.event_manager.hasActiveIncident i = false →
        (∀ d, SimulationEvent.TrafficIncident i d ∉ (s2.updateEvents dt now o).2) →
        formulaAt i (s2.updateEvents dt now o).1.intersections) := by
  rw [updateEvents_decomp]
  dsimp only
  have hem3 : (((s2.event_manager.update dt s2.vehicles s2.intersections now o).2.2).foldl
      (fun (acc : SimulationEngine) e => acc.handleSimulationEvent e now o)
      { s2 with
        event_manager := (s2.event_manager.update dt s2.vehicles s2.intersections now o).1
        intersections :=
          (s2.event_manager.update dt s2.vehicles s2.intersections now o).2.1 }).event_manager
      = (s2.event_manager.update dt s2.vehicles s2.intersections now o).1 := by
    rw [handle_fold_event_manager]
  rw [hem3]
  constructor
  · intro htrue
    obtain ⟨ae, hmem, d, hae⟩ :=
      (hasActiveIncident_iff (s2.event_manager.update dt s2.vehicles s2.intersections now o).1
        i).mp htrue
    apply capAt_handle_fold
    show capAt i (s2.event_manager.update dt s2.vehicles s2.intersections now o).2.1
    rw [emUpdate_inters]
    exact capAt_fold_establish i now _ s2.intersections ⟨ae, hmem, d, hae⟩
  · intro hfalse hno
    have hnone : ∀ ae ∈ (s2.event_manager.update dt s2.vehicles s2.intersections now
        o).1.active_events, ∀ d, ae.event ≠ SimulationEvent.TrafficIncident i d := by
      intro ae hmem d hev
      have htrue :=
        (hasActiveIncident_iff (s2.event_manager.update dt s2.vehicles s2.intersections now
          o).1 i).mpr ⟨ae, hmem, d, hev⟩
      rw [hfalse] at htrue
      exact absurd htrue (by decide)
    apply formulaAt_handle_fold i _ _ now o
    · intro e he d hde
      exact hno d (hde ▸ he)
    · show formulaAt i (s2.event_manager.update dt s2.vehicles s2.intersections now o).2.1
      rw [emUpdate_inters]
      exact formulaAt_fold i now _ s2.intersections hnone hform

theorem update_running_shape (s : SimulationEngine) (now : ℚ) (o : Oracle)
    (h : s.running = true) :
    ((s.update now o).1
        = (((((s.tickStart now).tickPreEvents (s.tickDt now) now o).updateEvents
            (s.tickDt now) now o).1.updateWeather (s.tickDt now) now o).updateStatistics
            (s.tickDt now) now).cleanupVehicles) ∧
      (s.tickTriggeredEvents now o
        = (((s.tickStart now).tickPreEvents (s.tickDt now) now o).updateEvents
            (s.tickDt now) now o).2) := by
  unfold SimulationEngine.update SimulationEngine.tickTriggeredEvents
    SimulationEngine.tickStart SimulationEngine.tickDt
  rw [h]
  exact ⟨rfl, rfl⟩

theorem post_phase_intersections (x : SimulationEngine) (dt now : ℚ) (o : Oracle) :
    ((((x.updateWeather dt now o).updateStatistics dt now).cleanupVehicles).intersections)
      = x.intersections := rfl

theorem post_phase_event_manager (x : SimulationEngine) (dt now : ℚ) (o : Oracle) :
    ((((x.updateWeather dt now o).updateStatistics dt now).cleanupVehicles).event_manager)
      = x.event_manager := rfl

/-- C5: while a `TrafficIncident` targeting intersection id `i` is active
in the event manager at the end of an engine tick, the intersection with id
`i` has efficiency score at most 50; once no incident targeting `i` is
active (its duration having elapsed) and none fires during the tick, the
score is exactly the intersection's own efficiency formula of its own
state. -/
theorem incident_caps_efficiency (s : SimulationEngine) (now : ℚ) (o : Oracle) (i : ℕ)
    (inter : Intersection) (hrun : s.running = true)
    (hfind : (s.update now o).1.intersections.find? (fun y => decide (y.id = i))
      = some inter) :
    ((s.update now o).1.event_manager.hasActiveIncident i = true →
        inter.efficiency_score ≤ 50) ∧
      ((s.update now o).1.event_manager.hasActiveIncident i = false →
        (∀ d, SimulationEvent.TrafficIncident i d ∉ s.tickTriggeredEvents now o) →
        inter.efficiency_score
          = efficiencyFormula inter.totalWaiting inter.emergency_active) := by
  obtain ⟨hU, hT⟩ := update_running_shape s now o hrun
  rw [hU, post_phase_intersections] at hfind
  have hform : formulaAt i ((s.tickStart now).tickPreEvents (s.tickDt now) now o).intersections :=
    fun x hx =>
      tickPreEvents_member_formula (s.tickStart now) (s.tickDt now) now o x
        (List.mem_of_find?_eq_some hx)
  have hphase :=
    events_phase ((s.tickStart now).tickPreEvents (s.tickDt now) now o) (s.tickDt now) now o i
      hform
  constructor
  · intro htrue
    rw [hU, post_phase_event_manager] at htrue
    exact hphase.1 htrue inter hfind
  · intro hfalse hno
    rw [hU, post_phase_event_manager] at hfalse
    rw [hT] at hno
    exact hphase.2 hfalse hno inter hfind

/-- C5 witness: on the concrete engine with a fired 60-second incident at
intersection 0, the post-tick intersection's score is at most 50. -/
theorem incident_caps_efficiency_witness : c5Inter.efficiency_score ≤ 50 :=
  (incident_caps_efficiency c5Engine 1 Oracle.quiet 0 c5Inter (by with_unfolding_all decide)
      (by with_unfolding_all decide)).1 (by with_unfolding_all decide)

/-- C10: `increase_traffic_density(f)` and `decrease_traffic_density(f)`
perform the identical transformation — each multiplies every spawner's rate
by `f` (subject to the `set_spawn_rate` clamp); the decrease command does
not divide or invert the factor. -/
theorem density_commands_identical (s : SimulationEngine) (f : ℚ) :
    s.increaseTrafficDensity f = densityTransformSpec s f ∧
      s.decreaseTrafficDensity f = densityTransformSpec s f :=
  ⟨rfl, rfl⟩

end Sim
